import Mathlib

/-!
Verification of the FastC compiler core (crates/fastc) against its
specification.  The data model and the operations under study are embedded
shallowly from the Rust sources:

* `ast/*`            — the source-language AST (spans are omitted: the
                        embedded functions use spans only to position
                        diagnostics, never to decide control flow, and the
                        diagnostics here are modelled without positions);
* `lower/*`          — the lowering pass to the C-centric AST, including
                        runtime-check insertion; a `panic!` in the source is
                        modelled as `Except.error` carrying the panic message;
* `typecheck/*`      — the type checker with its unsafe-context tracking;
* `parser/*`         — the recursive-descent expression parser, embedded
                        with an explicit fuel argument (the Rust recursion is
                        unbounded; every theorem supplies concrete fuel).

Rust `f64` payloads are carried as their literal text: no embedded function
inspects the numeric value of a float.  Rust's `HashMap`/`HashSet`/`IndexMap`
are carried as association lists / lists; where the source sorts a hash
container before use, the embedding takes the collected list in an arbitrary
order and the determinism theorem shows the output is order-independent.
-/

namespace FastC

/-- Primitive types (src/crates/fastc/src/ast/types.rs). -/
inductive PrimitiveType where
  | I8 | I16 | I32 | I64
  | U8 | U16 | U32 | U64
  | F32 | F64
  | Bool
  | Usize | Isize
deriving DecidableEq, Repr

/-- Binary operators (src/crates/fastc/src/ast/expr.rs). -/
inductive BinOp where
  | Add | Sub | Mul | Div | Rem
  | Eq | Ne | Lt | Le | Gt | Ge
  | And | Or
  | BitAnd | BitOr | BitXor | Shl | Shr
deriving DecidableEq, Repr

/-- Unary operators (src/crates/fastc/src/ast/expr.rs). -/
inductive UnaryOp where
  | Neg | Not | BitNot
deriving DecidableEq, Repr

mutual
/-- Type expressions (src/crates/fastc/src/ast/types.rs).  `Arr` carries a
constant expression for its size, so the two types are mutually inductive. -/
inductive TypeExpr where
  | Primitive (p : PrimitiveType)
  | Named (name : String)
  | Ref (inner : TypeExpr)
  | Mref (inner : TypeExpr)
  | Raw (inner : TypeExpr)
  | Rawm (inner : TypeExpr)
  | Own (inner : TypeExpr)
  | Slice (inner : TypeExpr)
  | Arr (elem : TypeExpr) (size : ConstExpr)
  | Opt (inner : TypeExpr)
  | Res (ok : TypeExpr) (err : TypeExpr)
  | Fn ( is_unsafe : Bool) (params : List TypeExpr) (ret : TypeExpr)
  | Void

/-- Constant expressions (src/crates/fastc/src/ast/expr.rs).  The `f64` of
`FloatLit` is carried as its literal text. -/
inductive ConstExpr where
  | IntLit (value : Int)
  | FloatLit (raw : String)
  | BoolLit (value : Bool)
  | Ident (name : String)
  | Binary (op : BinOp) (lhs : ConstExpr) (rhs : ConstExpr)
  | Unary (op : UnaryOp) (operand : ConstExpr)
  | Paren (inner : ConstExpr)
  | Cast (ty : TypeExpr) (expr : ConstExpr)
  | CStr (s : String)
  | Bytes (s : String)
end

mutual
/-- Expressions (src/crates/fastc/src/ast/expr.rs), spans dropped.
`FloatLit` keeps only the raw literal text (the `value : f64` field is never
read by the embedded passes). -/
inductive Expr where
  | IntLit (value : Int)
  | FloatLit (raw : String)
  | BoolLit (value : Bool)
  | Ident (name : String)
  | Binary (op : BinOp) (lhs : Expr) (rhs : Expr)
  | Unary (op : UnaryOp) (operand : Expr)
  | Paren (inner : Expr)
  | Call (callee : Expr) (args : List Expr)
  | Field (base : Expr) (field : String)
  | Addr (operand : Expr)
  | Deref (operand : Expr)
  | At (base : Expr) (index : Expr)
  | Cast (ty : TypeExpr) (expr : Expr)
  | CStr (value : String)
  | Bytes (value : String)
  | None (ty : TypeExpr)
  | Some (value : Expr)
  | Ok (value : Expr)
  | Err (value : Expr)
  | StructLit (name : String) (fields : List FieldInit)

/-- A field initializer in a struct literal (src/crates/fastc/src/ast/expr.rs). -/
inductive FieldInit where
  | mk (name : String) (value : Expr)
end

def FieldInit.name : FieldInit → String
  | .mk n _ => n

def FieldInit.value : FieldInit → Expr
  | .mk _ v => v

/-- For-loop initializer (src/crates/fastc/src/ast/stmt.rs). -/
inductive ForInit where
  | Let (name : String) (ty : TypeExpr) (init : Expr)
  | Assign (lhs : Expr) (rhs : Expr)
  | Call (expr : Expr)

/-- For-loop step (src/crates/fastc/src/ast/stmt.rs). -/
inductive ForStep where
  | Assign (lhs : Expr) (rhs : Expr)
  | Call (expr : Expr)

mutual
/-- Statements (src/crates/fastc/src/ast/stmt.rs).  A source `Block` is a
statement list plus a span; with spans dropped it is embedded as the bare
statement list. -/
inductive Stmt where
  | Let (name : String) (ty : TypeExpr) (init : Expr)
  | Assign (lhs : Expr) (rhs : Expr)
  | If (cond : Expr) (then_block : List Stmt) (else_block : Option ElseBranch)
  | IfLet (name : String) (expr : Expr) (then_block : List Stmt)
      (else_block : Option (List Stmt))
  | While (cond : Expr) (body : List Stmt)
  | For (init : Option ForInit) (cond : Option Expr) (step : Option ForStep)
      (body : List Stmt)
  | Switch (expr : Expr) (cases : List Case) (default : Option (List Stmt))
  | Return (value : Option Expr)
  | Break
  | Continue
  | Defer (body : List Stmt)
  | Expr (expr : Expr)
  | Discard (expr : Expr)
  | Unsafe (body : List Stmt)
  | Block (stmts : List Stmt)

/-- Else branch: either another if or a block (src/crates/fastc/src/ast/stmt.rs). -/
inductive ElseBranch where
  | ElseIf (stmt : Stmt)
  | Else (block : List Stmt)

/-- A switch case (src/crates/fastc/src/ast/stmt.rs). -/
inductive Case where
  | mk (value : ConstExpr) (stmts : List Stmt)
end

def Case.value : Case → ConstExpr
  | .mk v _ => v

def Case.stmts : Case → List Stmt
  | .mk _ s => s

/-- Representation attribute (src/crates/fastc/src/ast/decl.rs, `Repr`);
renamed to avoid the Lean `Repr` class. -/
inductive ReprAttr where
  | C | I8 | U8 | I16 | U16 | I32 | U32 | I64 | U64
deriving DecidableEq, Repr

/-- Enum variant (src/crates/fastc/src/ast/decl.rs), span dropped. -/
structure Variant where
  name : String
  fields : Option (List TypeExpr)

/-- Enum declaration (src/crates/fastc/src/ast/decl.rs), span dropped. -/
structure EnumDecl where
  repr : Option ReprAttr
  name : String
  variants : List Variant

/-- Struct field (src/crates/fastc/src/ast/decl.rs), span dropped. -/
structure Field where
  name : String
  ty : TypeExpr

/-- Struct declaration (src/crates/fastc/src/ast/decl.rs), span dropped. -/
structure StructDecl where
  repr : Option ReprAttr
  name : String
  fields : List Field

/-! ## C AST (src/crates/fastc/src/lower/c_ast.rs) -/

/-- C types.  `Array` sizes are `usize` in the source, embedded as `Nat`. -/
inductive CType where
  | Void | Bool
  | Int8 | Int16 | Int32 | Int64
  | UInt8 | UInt16 | UInt32 | UInt64
  | Float | Double
  | SizeT | PtrDiffT
  | Ptr (inner : CType)
  | ConstPtr (inner : CType)
  | Array (inner : CType) (size : Nat)
  | Slice (inner : CType)
  | Opt (inner : CType)
  | Res (ok : CType) (err : CType)
  | Named (name : String)

/-- C struct field. -/
structure CField where
  name : String
  ty : CType

/-- C declarations. -/
inductive CDecl where
  | Struct (name : String) (fields : List CField)
  | Typedef (name : String) (ty : CType)
  | Enum (name : String) (variants : List String)

/-- C function parameter. -/
structure CParam where
  name : String
  ty : CType

/-- C binary operators. -/
inductive CBinOp where
  | Add | Sub | Mul | Div | Mod
  | Eq | Ne | Lt | Le | Gt | Ge
  | And | Or
  | BitAnd | BitOr | BitXor | Shl | Shr
deriving DecidableEq, Repr

/-- C unary operators. -/
inductive CUnaryOp where
  | Neg | Not | BitNot
deriving DecidableEq, Repr

/-- C expressions. -/
inductive CExpr where
  | IntLit (s : String)
  | FloatLit (s : String)
  | BoolLit (b : Bool)
  | StringLit (s : String)
  | Ident (s : String)
  | Binary (op : CBinOp) (lhs : CExpr) (rhs : CExpr)
  | Unary (op : CUnaryOp) (operand : CExpr)
  | Call (func : CExpr) (args : List CExpr)
  | Field (base : CExpr) (field : String)
  | Deref (inner : CExpr)
  | AddrOf (inner : CExpr)
  | Index (base : CExpr) (index : CExpr)
  | Cast (ty : CType) (expr : CExpr)
  | Paren (inner : CExpr)
  | Compound (ty : CType) (fields : List (String × CExpr))

/-- C statements. -/
inductive CStmt where
  | VarDecl (name : String) (ty : CType) (init : Option CExpr)
  | Assign (lhs : CExpr) (rhs : CExpr)
  | If (cond : CExpr) (then_ : List CStmt) (else_ : Option (List CStmt))
  | While (cond : CExpr) (body : List CStmt)
  | For (init : Option CStmt) (cond : Option CExpr) (step : Option CExpr)
      (body : List CStmt)
  | Return (value : Option CExpr)
  | Expr (e : CExpr)
  | Block (stmts : List CStmt)
  | Goto (l : String)
  | Label (l : String)
  | Switch (expr : CExpr) (cases : List (CExpr × List CStmt))
      (default : Option (List CStmt))
  | Break

/-- C function definition. -/
structure CFnDef where
  name : String
  params : List CParam
  return_type : CType
  body : List CStmt

/-! ## Runtime check insertion (src/crates/fastc/src/lower/checks.rs) -/

namespace checks

/-- `bounds_check`: `if (index >= len) fc_trap();`. -/
def bounds_check (index len : CExpr) : CStmt :=
  CStmt.If (CExpr.Binary CBinOp.Ge index len)
    [CStmt.Expr (CExpr.Call (CExpr.Ident "fc_trap") [])]
    Option.none

/-- `null_check`: `if (ptr == NULL) fc_trap();`. -/
def null_check (ptr : CExpr) : CStmt :=
  CStmt.If (CExpr.Binary CBinOp.Eq ptr (CExpr.Ident "NULL"))
    [CStmt.Expr (CExpr.Call (CExpr.Ident "fc_trap") [])]
    Option.none

/-- Helper for overflow checks with builtin functions. -/
def overflow_check_with_builtin (builtin : String) (lhs rhs : CExpr)
    (result_var : String) (ty : CType) : CStmt × CStmt :=
  (CStmt.VarDecl result_var ty Option.none,
   CStmt.If
     (CExpr.Call (CExpr.Ident builtin)
       [lhs, rhs, CExpr.AddrOf (CExpr.Ident result_var)])
     [CStmt.Expr (CExpr.Call (CExpr.Ident "fc_trap") [])]
     Option.none)

/-- Signed overflow check using `__builtin_add_overflow`. -/
def overflow_check_add (lhs rhs : CExpr) (result_var : String) (ty : CType) :
    CStmt × CStmt :=
  overflow_check_with_builtin "__builtin_add_overflow" lhs rhs result_var ty

/-- Signed overflow check using `__builtin_sub_overflow`. -/
def overflow_check_sub (lhs rhs : CExpr) (result_var : String) (ty : CType) :
    CStmt × CStmt :=
  overflow_check_with_builtin "__builtin_sub_overflow" lhs rhs result_var ty

/-- Signed overflow check using `__builtin_mul_overflow`. -/
def overflow_check_mul (lhs rhs : CExpr) (result_var : String) (ty : CType) :
    CStmt × CStmt :=
  overflow_check_with_builtin "__builtin_mul_overflow" lhs rhs result_var ty

/-- Division by zero check: `if (divisor == 0) fc_trap();`. -/
def div_zero_check (divisor : CExpr) : CStmt :=
  CStmt.If (CExpr.Binary CBinOp.Eq divisor (CExpr.IntLit "0"))
    [CStmt.Expr (CExpr.Call (CExpr.Ident "fc_trap") [])]
    Option.none

end checks

/-! ## Lowering pass (src/crates/fastc/src/lower/mod.rs)

The Rust `Lower` struct owns three `HashSet<String>` typedef trackers and a
`HashMap<String, CType>` of variable types.  The map is only ever inserted
into and looked up, so it is embedded as an association list whose `insert`
prepends and whose `get` takes the first hit — observably the `HashMap`
behaviour.  A source `panic!` is modelled as `Except.error` with the panic
message. -/

/-- Association-list lookup standing in for `HashMap::get`. -/
def assoc_get {α : Type} (m : List (String × α)) (k : String) : Option α :=
  (m.find? (fun p => p.1 == k)).map (fun p => p.2)

/-- Lowering pass state (struct `Lower`). -/
structure Lower where
  temp_counter : Nat
  in_unsafe : Bool
  opt_types : List String
  res_types : List String
  slice_types : List String
  var_types : List (String × CType)

/-- `Lower::new`. -/
def Lower.new : Lower :=
  { temp_counter := 0, in_unsafe := false, opt_types := [], res_types := [],
    slice_types := [], var_types := [] }

/-- `Lower::fresh_temp`. -/
def fresh_temp (l : Lower) : String × Lower :=
  ("__tmp" ++ toString l.temp_counter, { l with temp_counter := l.temp_counter + 1 })

/-- `Lower::has_side_effects`: whether an expression requires evaluation-order
temporaries. -/
def has_side_effects : Expr → Bool
  | .Call _ _ => true
  | .Binary _ lhs rhs => has_side_effects lhs || has_side_effects rhs
  | .Unary _ operand => has_side_effects operand
  | .Paren inner => has_side_effects inner
  | .Field base _ => has_side_effects base
  | .Addr operand => has_side_effects operand
  | .Deref operand => has_side_effects operand
  | .At base index => has_side_effects base || has_side_effects index
  | .Cast _ e => has_side_effects e
  | .Some v => has_side_effects v
  | .Ok v => has_side_effects v
  | .Err v => has_side_effects v
  | _ => false

mutual
/-- `Lower::lower_type` (the state is not read).  The `Arr` branch evaluates
the size, which can panic. -/
def lower_type : TypeExpr → Except String CType
  | .Primitive p =>
    .ok (match p with
      | .I8 => .Int8 | .I16 => .Int16 | .I32 => .Int32 | .I64 => .Int64
      | .U8 => .UInt8 | .U16 => .UInt16 | .U32 => .UInt32 | .U64 => .UInt64
      | .F32 => .Float | .F64 => .Double | .Bool => .Bool
      | .Usize => .SizeT | .Isize => .PtrDiffT)
  | .Void => .ok .Void
  | .Named name => .ok (.Named name)
  | .Ref inner => do .ok (.ConstPtr (← lower_type inner))
  | .Raw inner => do .ok (.ConstPtr (← lower_type inner))
  | .Mref inner => do .ok (.Ptr (← lower_type inner))
  | .Rawm inner => do .ok (.Ptr (← lower_type inner))
  | .Own inner => do .ok (.Ptr (← lower_type inner))
  | .Slice inner => do .ok (.Slice (← lower_type inner))
  | .Arr elem size_expr => do
    let size ← eval_const_size size_expr
    .ok (.Array (← lower_type elem) size)
  | .Opt inner => do .ok (.Opt (← lower_type inner))
  | .Res ok_ty err_ty => do .ok (.Res (← lower_type ok_ty) (← lower_type err_ty))
  | .Fn _ _ _ => .ok .Void

/-- `Lower::eval_const_size`: evaluate a constant expression to a `usize`
array size.  Every `panic!` of the source is an `Except.error` here; Rust's
`saturating_sub` is `Nat` subtraction, and Rust's own panic on `l / 0` is the
division-by-zero error. -/
def eval_const_size : ConstExpr → Except String Nat
  | .IntLit n =>
    if n < 0 then .error "array size cannot be negative" else .ok n.toNat
  | .Paren inner => eval_const_size inner
  | .Binary op lhs rhs => do
    let l ← eval_const_size lhs
    let r ← eval_const_size rhs
    match op with
    | .Add => .ok (l + r)
    | .Sub => .ok (l - r)
    | .Mul => .ok (l * r)
    | .Div => if r = 0 then .error "attempt to divide by zero" else .ok (l / r)
    | _ => .error "unsupported operator in array size"
  | .Unary op operand => do
    let v ← eval_const_size operand
    match op with
    | .Neg => .error "array size cannot be negative"
    | _ => .ok v
  | _ => .error "unsupported constant expression in array size"
end

/-- `Lower::lower_binop`. -/
def lower_binop : BinOp → CBinOp
  | .Add => .Add | .Sub => .Sub | .Mul => .Mul | .Div => .Div | .Rem => .Mod
  | .Eq => .Eq | .Ne => .Ne | .Lt => .Lt | .Le => .Le | .Gt => .Gt | .Ge => .Ge
  | .And => .And | .Or => .Or
  | .BitAnd => .BitAnd | .BitOr => .BitOr | .BitXor => .BitXor
  | .Shl => .Shl | .Shr => .Shr

/-- `Lower::lower_unaryop`. -/
def lower_unaryop : UnaryOp → CUnaryOp
  | .Neg => .Neg | .Not => .Not | .BitNot => .BitNot

/-- `Lower::is_signed_integer`. -/
def is_signed_integer : CType → Bool
  | .Int8 | .Int16 | .Int32 | .Int64 | .PtrDiffT => true
  | _ => false

/-- `Lower::infer_expr_type`: the simple type inference the lowerer uses to
decide check insertion.  The `Cast` branch calls `lower_type`, which can
panic, so the result is `Except`. -/
def infer_expr_type (l : Lower) : Expr → Except String CType
  | .IntLit _ => .ok .Int32
  | .FloatLit _ => .ok .Double
  | .BoolLit _ => .ok .Bool
  | .Cast ty _ => lower_type ty
  | .Paren inner => infer_expr_type l inner
  | .Unary _ operand => infer_expr_type l operand
  | .Binary op lhs _ =>
    (match op with
     | .Eq | .Ne | .Lt | .Le | .Gt | .Ge | .And | .Or => .ok .Bool
     | _ => infer_expr_type l lhs)
  | .Ident name => .ok ((assoc_get l.var_types name).getD .Void)
  | .Call callee _ =>
    (match callee with
     | .Ident name =>
       .ok (if name == "get_some" || name == "get_none" then .Opt .Int32 else .Void)
     | _ => .ok .Void)
  | _ => .ok .Void

/-- `Lower::lower_const_expr`. -/
def lower_const_expr : ConstExpr → Except String CExpr
  | .IntLit n => .ok (.IntLit (toString n))
  | .FloatLit raw => .ok (.FloatLit raw)
  | .BoolLit b => .ok (.BoolLit b)
  | .Ident name => .ok (.Ident name)
  | .Binary op lhs rhs => do
    .ok (.Binary (lower_binop op) (← lower_const_expr lhs) (← lower_const_expr rhs))
  | .Unary op operand => do
    .ok (.Unary (lower_unaryop op) (← lower_const_expr operand))
  | .Paren inner => do .ok (.Paren (← lower_const_expr inner))
  | .Cast ty e => do .ok (.Cast (← lower_type ty) (← lower_const_expr e))
  | .CStr s => .ok (.StringLit s)
  | .Bytes s => .ok (.StringLit s)

mutual
/-- `Lower::lower_expr`.  The Rust function pushes prelude statements into a
`&mut Vec<CStmt>`; here each call returns, in order, the statements it would
have pushed, and the caller concatenates them. -/
def lower_expr : Lower → Expr → Except String (CExpr × List CStmt × Lower)
  | l, .IntLit value => .ok (.IntLit (toString value), [], l)
  | l, .FloatLit raw => .ok (.FloatLit raw, [], l)
  | l, .BoolLit b => .ok (.BoolLit b, [], l)
  | l, .Ident name => .ok (.Ident name, [], l)
  | l, .Binary op lhs rhs =>
    match op with
    | .And => do
      let (tmp, l1) := fresh_temp l
      let (c_lhs, p1, l2) ← lower_expr l1 lhs
      let (c_rhs, p2, l3) ← lower_expr l2 rhs
      .ok (.Ident tmp,
        p1 ++ p2 ++
          [CStmt.VarDecl tmp .Bool Option.none,
           CStmt.If c_lhs
             [CStmt.Assign (.Ident tmp) c_rhs]
             (Option.some [CStmt.Assign (.Ident tmp) (.BoolLit false)])],
        l3)
    | .Or => do
      let (tmp, l1) := fresh_temp l
      let (c_lhs, p1, l2) ← lower_expr l1 lhs
      let (c_rhs, p2, l3) ← lower_expr l2 rhs
      .ok (.Ident tmp,
        p1 ++ p2 ++
          [CStmt.VarDecl tmp .Bool Option.none,
           CStmt.If c_lhs
             [CStmt.Assign (.Ident tmp) (.BoolLit true)]
             (Option.some [CStmt.Assign (.Ident tmp) c_rhs])],
        l3)
    | .Div | .Rem => do
      let (c_lhs, p1, l1) ← lower_expr l lhs
      let (c_rhs, p2, l2) ← lower_expr l1 rhs
      let p3 := if !l2.in_unsafe then [checks.div_zero_check c_rhs] else []
      .ok (.Binary (lower_binop op) c_lhs c_rhs, p1 ++ p2 ++ p3, l2)
    | .Add | .Sub | .Mul => do
      let expr_ty ← infer_expr_type l lhs
      let (c_lhs, p1, l1) ← lower_expr l lhs
      let (c_rhs, p2, l2) ← lower_expr l1 rhs
      if !l2.in_unsafe && is_signed_integer expr_ty then
        let (tmp, l3) := fresh_temp l2
        let (decl, check) :=
          match op with
          | .Add => checks.overflow_check_add c_lhs c_rhs tmp expr_ty
          | .Sub => checks.overflow_check_sub c_lhs c_rhs tmp expr_ty
          | _ => checks.overflow_check_mul c_lhs c_rhs tmp expr_ty
        .ok (.Ident tmp, p1 ++ p2 ++ [decl, check], l3)
      else
        .ok (.Binary (lower_binop op) c_lhs c_rhs, p1 ++ p2, l2)
    | _ => do
      let (c_lhs, p1, l1) ← lower_expr l lhs
      let (c_rhs, p2, l2) ← lower_expr l1 rhs
      .ok (.Binary (lower_binop op) c_lhs c_rhs, p1 ++ p2, l2)
  | l, .Unary op operand => do
    let (c_operand, p, l1) ← lower_expr l operand
    .ok (.Unary (lower_unaryop op) c_operand, p, l1)
  | l, .Paren inner => do
    let (c_inner, p, l1) ← lower_expr l inner
    .ok (.Paren c_inner, p, l1)
  | l, .Call callee args => do
    let (c_callee, p1, l1) ← lower_expr l callee
    let (c_args, p2, l2) ← lower_call_args l1 args
    .ok (.Call c_callee c_args, p1 ++ p2, l2)
  | l, .Field base field => do
    let (c_base, p, l1) ← lower_expr l base
    .ok (.Field c_base field, p, l1)
  | l, .Addr operand => do
    let (c_operand, p, l1) ← lower_expr l operand
    .ok (.AddrOf c_operand, p, l1)
  | l, .Deref operand => do
    let (c_operand, p, l1) ← lower_expr l operand
    .ok (.Deref c_operand, p, l1)
  | l, .At base index => do
    let base_ty ← infer_expr_type l base
    let (c_base, p1, l1) ← lower_expr l base
    let (c_index, p2, l2) ← lower_expr l1 index
    match base_ty with
    | .Slice _ =>
      let p3 :=
        if !l2.in_unsafe then
          [checks.bounds_check c_index (.Field c_base "len")]
        else []
      .ok (.Index (.Field c_base "data") c_index, p1 ++ p2 ++ p3, l2)
    | _ => .ok (.Index c_base c_index, p1 ++ p2, l2)
  | l, .Cast ty e => do
    let (c_e, p, l1) ← lower_expr l e
    .ok (.Cast (← lower_type ty) c_e, p, l1)
  | l, .CStr value => .ok (.StringLit value, [], l)
  | l, .Some value => do
    let inner_ty ← infer_expr_type l value
    let (c_value, p, l1) ← lower_expr l value
    .ok (.Compound (.Opt inner_ty)
      [("has_value", .BoolLit true), ("value", c_value)], p, l1)
  | l, .None ty => do
    let inner_ty ← lower_type ty
    .ok (.Compound (.Opt inner_ty) [("has_value", .BoolLit false)], [], l)
  | l, .Ok value => do
    let ok_ty ← infer_expr_type l value
    let (c_value, p, l1) ← lower_expr l value
    .ok (.Compound (.Res ok_ty .Void)
      [("is_ok", .BoolLit true), ("ok", c_value)], p, l1)
  | l, .Err value => do
    let err_ty ← infer_expr_type l value
    let (c_value, p, l1) ← lower_expr l value
    .ok (.Compound (.Res .Void err_ty)
      [("is_ok", .BoolLit false), ("err", c_value)], p, l1)
  | l, .StructLit name fields => do
    let (c_fields, p, l1) ← lower_struct_fields l fields
    .ok (.Compound (.Named name) c_fields, p, l1)
  | l, .Bytes _ => .ok (.Ident "/* TODO */", [], l)

/-- The argument loop of the `Expr::Call` branch: each lowered argument with
side effects is hoisted into a fresh `__tmpN` (declared `int32_t` — the
source comment notes the actual type would need inference). -/
def lower_call_args : Lower → List Expr →
    Except String (List CExpr × List CStmt × Lower)
  | l, [] => .ok ([], [], l)
  | l, arg :: rest => do
    let (c_arg, p1, l1) ← lower_expr l arg
    let (a, p2, l2) :=
      if has_side_effects arg then
        let (tmp, l2) := fresh_temp l1
        (CExpr.Ident tmp, [CStmt.VarDecl tmp .Int32 (Option.some c_arg)], l2)
      else (c_arg, ([] : List CStmt), l1)
    let (c_rest, p3, l3) ← lower_call_args l2 rest
    .ok (a :: c_rest, p1 ++ p2 ++ p3, l3)

/-- The field loop of the `Expr::StructLit` branch. -/
def lower_struct_fields : Lower → List FieldInit →
    Except String (List (String × CExpr) × List CStmt × Lower)
  | l, [] => .ok ([], [], l)
  | l, .mk name value :: rest => do
    let (c_v, p1, l1) ← lower_expr l value
    let (c_rest, p2, l2) ← lower_struct_fields l1 rest
    .ok ((name, c_v) :: c_rest, p1 ++ p2, l2)
end

mutual
/-- `Lower::lower_stmt`.  Statements not handled by the source
(`For`, `Break`, `Continue`, `Defer`) fall into its catch-all, which returns
an empty statement list. -/
def lower_stmt : Lower → Stmt → Except String (List CStmt × Lower)
  | l, .Let name ty init => do
    let c_ty ← lower_type ty
    let l1 := { l with var_types := (name, c_ty) :: l.var_types }
    let (c_init, p, l2) ← lower_expr l1 init
    .ok (p ++ [CStmt.VarDecl name c_ty (Option.some c_init)], l2)
  | l, .Assign lhs rhs => do
    let (c_lhs, p1, l1) ← lower_expr l lhs
    let (c_rhs, p2, l2) ← lower_expr l1 rhs
    .ok (p1 ++ p2 ++ [CStmt.Assign c_lhs c_rhs], l2)
  | l, .Return value =>
    match value with
    | Option.none => .ok ([CStmt.Return Option.none], l)
    | Option.some v => do
      let (c_v, p, l1) ← lower_expr l v
      .ok (p ++ [CStmt.Return (Option.some c_v)], l1)
  | l, .If cond then_block else_block => do
    let (c_cond, p1, l1) ← lower_expr l cond
    let (c_then, l2) ← lower_block l1 then_block
    let (c_else, l3) ←
      match else_block with
      | Option.none => pure ((Option.none : Option (List CStmt)), l2)
      | Option.some (.Else b) => do
        let (s, l') ← lower_block l2 b
        pure (Option.some s, l')
      | Option.some (.ElseIf s) => do
        let (s', l') ← lower_stmt l2 s
        pure (Option.some s', l')
    .ok (p1 ++ [CStmt.If c_cond c_then c_else], l3)
  | l, .While cond body => do
    let (c_cond, p1, l1) ← lower_expr l cond
    let (c_body, l2) ← lower_block l1 body
    .ok (p1 ++ [CStmt.While c_cond c_body], l2)
  | l, .Expr e => do
    let (c_e, p, l1) ← lower_expr l e
    .ok (p ++ [CStmt.Expr c_e], l1)
  | l, .Block b => do
    let (s, l1) ← lower_block l b
    .ok ([CStmt.Block s], l1)
  | l, .Unsafe body => do
    let was := l.in_unsafe
    let (s, l1) ← lower_block { l with in_unsafe := true } body
    .ok (s, { l1 with in_unsafe := was })
  | l, .Discard e => do
    let (c_e, p, l1) ← lower_expr l e
    .ok (p ++ [CStmt.Expr (CExpr.Cast .Void c_e)], l1)
  | l, .IfLet name expr then_block else_block => do
    let (c_expr, p1, l1) ← lower_expr l expr
    let opt_ty ← infer_expr_type l1 expr
    let inner_ty :=
      match opt_ty with
      | .Opt inner => inner
      | _ => .Int32
    let (tmp, l2) := fresh_temp l1
    let (c_then, l3) ← lower_block l2 then_block
    let then_stmts :=
      CStmt.VarDecl name inner_ty
        (Option.some (CExpr.Field (.Ident tmp) "value")) :: c_then
    let (else_stmts, l4) ←
      match else_block with
      | Option.none => pure ((Option.none : Option (List CStmt)), l3)
      | Option.some eb => do
        let (s, l') ← lower_block l3 eb
        pure (Option.some s, l')
    .ok (p1 ++
      [CStmt.VarDecl tmp opt_ty (Option.some c_expr),
       CStmt.If (CExpr.Field (.Ident tmp) "has_value") then_stmts else_stmts],
      l4)
  | l, .Switch expr cases default => do
    let (c_expr, p1, l1) ← lower_expr l expr
    let (c_cases, l2) ← lower_cases l1 cases
    let (c_default, l3) ←
      match default with
      | Option.none => pure ((Option.none : Option (List CStmt)), l2)
      | Option.some stmts => do
        let (d, l') ← lower_block l2 stmts
        pure (Option.some (d ++ [CStmt.Break]), l')
    .ok (p1 ++ [CStmt.Switch c_expr c_cases c_default], l3)
  | l, .For _ _ _ _ => .ok ([], l)
  | l, .Break => .ok ([], l)
  | l, .Continue => .ok ([], l)
  | l, .Defer _ => .ok ([], l)

/-- `Lower::lower_block`: statements lowered in order, results concatenated
(also the semantics of the source's `flat_map` over case and default
statements). -/
def lower_block : Lower → List Stmt → Except String (List CStmt × Lower)
  | l, [] => .ok ([], l)
  | l, s :: rest => do
    let (c_s, l1) ← lower_stmt l s
    let (c_rest, l2) ← lower_block l1 rest
    .ok (c_s ++ c_rest, l2)

/-- The case loop of the `Stmt::Switch` branch: each case's statements are
lowered and a `break;` is appended. -/
def lower_cases : Lower → List Case →
    Except String (List (CExpr × List CStmt) × Lower)
  | l, [] => .ok ([], l)
  | l, .mk value stmts :: rest => do
    let c_value ← lower_const_expr value
    let (c_stmts, l1) ← lower_block l stmts
    let (c_rest, l2) ← lower_cases l1 rest
    .ok ((c_value, c_stmts ++ [CStmt.Break]) :: c_rest, l2)
end

/-! ## Typedef generation and deterministic ordering
(src/crates/fastc/src/lower/mod.rs, `Lower::lower` and
`Lower::generate_opt_res_typedefs`)

Rust's `Vec::sort`/`sort_by` is a stable sort under `Ord`; for `String`,
`Ord` is the lexicographic order on the UTF-8 bytes, which coincides with
the lexicographic order on unicode scalar values.  The embedding uses a
stable insertion sort over that order — stable sorts of a list under a total
order agree element-for-element. -/

/-- Lexicographic comparison of char lists by scalar value (Rust `Ord` for
strings). -/
def chars_le : List Char → List Char → Bool
  | [], _ => true
  | _ :: _, [] => false
  | a :: as, b :: bs =>
    if a.toNat < b.toNat then true
    else if b.toNat < a.toNat then false
    else chars_le as bs

/-- String comparison standing in for Rust's `Ord for String`. -/
def str_le (a b : String) : Bool :=
  chars_le a.data b.data

/-- `str_le` as a decidable relation, for `List.insertionSort`. -/
def str_ord (a b : String) : Prop := str_le a b = true

instance : DecidableRel str_ord := fun a b => by
  unfold str_ord; infer_instance

/-- `Vec::<String>::sort()`. -/
def sort_strings (l : List String) : List String :=
  List.insertionSort str_ord l

/-- The name key of a C declaration (the `get_name` closure inside
`Lower::lower`). -/
def CDecl.get_name : CDecl → String
  | .Struct name _ => name
  | .Typedef name _ => name
  | .Enum name _ => name

/-- Declarations ordered by name, for the `sort_by` in `Lower::lower`. -/
def cdecl_le (a b : CDecl) : Prop := str_ord a.get_name b.get_name

instance : DecidableRel cdecl_le := fun a b => by
  unfold cdecl_le; infer_instance

/-- The `c_file.type_defs.sort_by(get_name cmp)` step of `Lower::lower`:
user-declared type declarations sorted by name. -/
def sort_type_defs (defs : List CDecl) : List CDecl :=
  List.insertionSort cdecl_le defs

/-- `Lower::name_to_c_type`. -/
def name_to_c_type : String → Option CType
  | "void" => Option.some .Void
  | "bool" => Option.some .Bool
  | "int8_t" => Option.some .Int8
  | "int16_t" => Option.some .Int16
  | "int32_t" => Option.some .Int32
  | "int64_t" => Option.some .Int64
  | "uint8_t" => Option.some .UInt8
  | "uint16_t" => Option.some .UInt16
  | "uint32_t" => Option.some .UInt32
  | "uint64_t" => Option.some .UInt64
  | "float" => Option.some .Float
  | "double" => Option.some .Double
  | "size_t" => Option.some .SizeT
  | "ptrdiff_t" => Option.some .PtrDiffT
  | name => Option.some (.Named name)

/-- `Lower::make_slice_typedef`. -/
def make_slice_typedef (inner_type_name : String) : Option CDecl := do
  let inner_ty ← name_to_c_type inner_type_name
  Option.some (CDecl.Struct ("fc_slice_" ++ inner_type_name)
    [{ name := "data", ty := .Ptr inner_ty },
     { name := "len", ty := .SizeT }])

/-- `Lower::make_opt_typedef`. -/
def make_opt_typedef (inner_type_name : String) : Option CDecl := do
  let inner_ty ← name_to_c_type inner_type_name
  Option.some (CDecl.Struct ("fc_opt_" ++ inner_type_name)
    [{ name := "has_value", ty := .Bool },
     { name := "value", ty := inner_ty }])

/-- Rust's `splitn(2, '_')`: split at the first underscore. -/
def splitn2_underscore (s : String) : Option (String × String) :=
  match s.splitOn "_" with
  | [] => Option.none
  | [_] => Option.none
  | p :: rest => Option.some (p, "_".intercalate rest)

/-- `Lower::make_res_typedef`: parses the `T_E` name at its first
underscore. -/
def make_res_typedef (type_name : String) : Option CDecl := do
  let (ok_name, err_name) ← splitn2_underscore type_name
  let ok_ty ← name_to_c_type ok_name
  let err_ty ← name_to_c_type err_name
  Option.some (CDecl.Struct ("fc_res_" ++ type_name)
    [{ name := "is_ok", ty := .Bool },
     { name := "ok", ty := ok_ty },
     { name := "err", ty := err_ty }])

/-- The slice names already provided by `fastc_runtime.h`
(`builtin_slice_types` in `Lower::generate_opt_res_typedefs`). -/
def builtin_slice_types : List String :=
  ["uint8_t", "int8_t", "uint16_t", "int16_t",
   "uint32_t", "int32_t", "uint64_t", "int64_t",
   "float", "double"]

/-- The `for … { type_defs.insert(0, decl) }` loop: each generated typedef is
prepended to the declaration list in turn. -/
def insert_each_at_front (make : String → Option CDecl) (names : List String)
    (defs : List CDecl) : List CDecl :=
  names.foldl
    (fun acc n =>
      match make n with
      | Option.some d => d :: acc
      | Option.none => acc)
    defs

/-- `Lower::generate_opt_res_typedefs`, taking the three collected type-name
sets as lists in whatever order the `HashSet` iteration produced them. -/
def generate_opt_res_typedefs (slice_types opt_types res_types : List String)
    (type_defs : List CDecl) : List CDecl :=
  let slice_sorted :=
    sort_strings (slice_types.filter (fun t => !builtin_slice_types.contains t))
  let defs1 := insert_each_at_front make_slice_typedef slice_sorted type_defs
  let defs2 := insert_each_at_front make_opt_typedef (sort_strings opt_types) defs1
  insert_each_at_front make_res_typedef (sort_strings res_types) defs2

/-! ### The string order is total, transitive and antisymmetric -/

theorem chars_le_total : ∀ a b : List Char, chars_le a b = true ∨ chars_le b a = true
  | [], _ => Or.inl rfl
  | _ :: _, [] => Or.inr rfl
  | a :: as, b :: bs => by
    by_cases h1 : a.toNat < b.toNat
    · exact Or.inl (by simp [chars_le, h1])
    · by_cases h2 : b.toNat < a.toNat
      · exact Or.inr (by simp [chars_le, h2])
      · rcases chars_le_total as bs with h | h
        · exact Or.inl (by simp [chars_le, h1, h2, h])
        · exact Or.inr (by simp [chars_le, h1, h2, h])

theorem chars_le_trans : ∀ a b c : List Char,
    chars_le a b = true → chars_le b c = true → chars_le a c = true
  | [], _, _, _, _ => rfl
  | _ :: _, [], _, h, _ => by simp [chars_le] at h
  | _ :: _, _ :: _, [], _, h => by simp [chars_le] at h
  | a :: as, b :: bs, c :: cs, h1, h2 => by
    by_cases hab : a.toNat < b.toNat <;> by_cases hbc : b.toNat < c.toNat
    · simp [chars_le, Nat.lt_trans hab hbc]
    · simp only [chars_le, hbc, if_false, if_true] at h2
      by_cases hcb : c.toNat < b.toNat
      · simp [hcb] at h2
      · have hbc' : b.toNat = c.toNat := Nat.le_antisymm
          (Nat.le_of_not_lt hcb) (Nat.le_of_not_lt hbc)
        simp [chars_le, hbc' ▸ hab]
    · simp only [chars_le, hab, if_false, if_true] at h1
      by_cases hba : b.toNat < a.toNat
      · simp [hba] at h1
      · have hab' : a.toNat = b.toNat := Nat.le_antisymm
          (Nat.le_of_not_lt hba) (Nat.le_of_not_lt hab)
        simp [chars_le, hab' ▸ hbc]
    · simp only [chars_le, hab, hbc, if_false, if_true] at h1 h2
      by_cases hba : b.toNat < a.toNat
      · simp [hba] at h1
      · by_cases hcb : c.toNat < b.toNat
        · simp [hcb] at h2
        · simp only [hba, hcb, if_false, if_true] at h1 h2
          have hab' : a.toNat = b.toNat := Nat.le_antisymm
            (Nat.le_of_not_lt hba) (Nat.le_of_not_lt hab)
          have hbc' : b.toNat = c.toNat := Nat.le_antisymm
            (Nat.le_of_not_lt hcb) (Nat.le_of_not_lt hbc)
          have hac : ¬ a.toNat < c.toNat := by omega
          have hca : ¬ c.toNat < a.toNat := by omega
          simp [chars_le, hac, hca, chars_le_trans as bs cs h1 h2]

theorem chars_le_antisymm : ∀ a b : List Char,
    chars_le a b = true → chars_le b a = true → a = b
  | [], [], _, _ => rfl
  | [], _ :: _, _, h => by simp [chars_le] at h
  | _ :: _, [], h, _ => by simp [chars_le] at h
  | a :: as, b :: bs, h1, h2 => by
    by_cases hab : a.toNat < b.toNat
    · have : ¬ b.toNat < a.toNat := Nat.lt_asymm hab
      simp [chars_le, hab, this] at h2
    · by_cases hba : b.toNat < a.toNat
      · simp [chars_le, hab, hba] at h1
      · simp only [chars_le, hab, hba, if_false, if_true] at h1 h2
        have hv : a.toNat = b.toNat := Nat.le_antisymm
          (Nat.le_of_not_lt hba) (Nat.le_of_not_lt hab)
        have hc : a = b := Char.ext (UInt32.ext hv)
        rw [hc, chars_le_antisymm as bs h1 h2]

instance : IsTotal String str_ord :=
  ⟨fun a b => chars_le_total a.data b.data⟩

instance : IsTrans String str_ord :=
  ⟨fun a b c => chars_le_trans a.data b.data c.data⟩

instance : IsAntisymm String str_ord :=
  ⟨fun a b h1 h2 => String.ext (chars_le_antisymm a.data b.data h1 h2)⟩

/-- A stable sort of a list under a total, transitive, antisymmetric order is
determined by the multiset of elements: sorting any permutation of the input
gives the same list.  This is the fact that makes the `HashSet` iteration
order invisible in the emitted C. -/
theorem sort_strings_perm_eq {l₁ l₂ : List String} (h : l₁.Perm l₂) :
    sort_strings l₁ = sort_strings l₂ :=
  List.eq_of_perm_of_sorted
    (((List.perm_insertionSort str_ord l₁).trans h).trans
      (List.perm_insertionSort str_ord l₂).symm)
    (List.sorted_insertionSort str_ord l₁)
    (List.sorted_insertionSort str_ord l₂)

/-! ## Claims about the lowering pass -/

/-- Reduction of a monadic bind against a known `Except.ok`, used to unfold
the embedded passes against hypotheses about their sub-calls. -/
@[simp] theorem ok_bind {ε α β : Type} (a : α) (f : α → Except ε β) :
    (do let x ← (Except.ok a : Except ε α); f x) = f a := rfl

/-- Reduction of a monadic bind against a known `Except.error`: a panic in a
sub-computation aborts the whole computation. -/
@[simp] theorem err_bind {ε α β : Type} (e : ε) (f : α → Except ε β) :
    (do let x ← (Except.error e : Except ε α); f x) = Except.error e := rfl

/-- C2 (amended): the lowering of `at(base, i)` keys on the lowerer's own
weak inference.  When `infer_expr_type` reports a slice type, the
safe-context lowering emits the prelude of both operands followed by
`if (i >= base.len) fc_trap();` and accesses `base.data[i]`, and unsafe
context drops exactly the check; when it reports any non-slice type — as it
does for every call expression, whatever the callee's declared return
type — the lowering is the plain unchecked `base[i]`, in safe and unsafe
context alike. -/
theorem C2_slice_bounds_check :
    (∀ (l : Lower) (base index : Expr) (t : CType)
        (cb : CExpr) (pb : List CStmt) (l1 : Lower)
        (ci : CExpr) (pidx : List CStmt) (l2 : Lower),
      infer_expr_type l base = .ok (.Slice t) →
      lower_expr l base = .ok (cb, pb, l1) →
      lower_expr l1 index = .ok (ci, pidx, l2) →
      (l2.in_unsafe = false →
        lower_expr l (.At base index)
          = .ok (.Index (.Field cb "data") ci,
              pb ++ pidx ++ [checks.bounds_check ci (.Field cb "len")], l2))
      ∧ (l2.in_unsafe = true →
        lower_expr l (.At base index)
          = .ok (.Index (.Field cb "data") ci, pb ++ pidx, l2)))
    ∧ (∀ (l : Lower) (base index : Expr) (ct : CType)
        (cb : CExpr) (pb : List CStmt) (l1 : Lower)
        (ci : CExpr) (pidx : List CStmt) (l2 : Lower),
      infer_expr_type l base = .ok ct →
      (∀ t, ct ≠ .Slice t) →
      lower_expr l base = .ok (cb, pb, l1) →
      lower_expr l1 index = .ok (ci, pidx, l2) →
      lower_expr l (.At base index) = .ok (.Index cb ci, pb ++ pidx, l2)) := by
  constructor
  · intro l base index t cb pb l1 ci pidx l2 hty hb hi
    constructor <;> intro h <;> simp [lower_expr, hty, hb, hi, h]
  · intro l base index ct cb pb l1 ci pidx l2 hty hns hb hi
    cases ct <;> first
      | exact absurd rfl (hns _)
      | simp [lower_expr, hty, hb, hi]

/-- Witness for C2 at a concrete program point: a slice parameter `s` and the
index `3`, lowered in safe and in unsafe context. -/
theorem C2_slice_bounds_check_witness :
    (lower_expr ⟨0, false, [], [], [], [("s", CType.Slice .Int32)]⟩
        (.At (.Ident "s") (.IntLit 3))
      = .ok (.Index (.Field (.Ident "s") "data") (.IntLit "3"),
          [checks.bounds_check (.IntLit "3") (.Field (.Ident "s") "len")],
          ⟨0, false, [], [], [], [("s", CType.Slice .Int32)]⟩))
    ∧ (lower_expr ⟨0, true, [], [], [], [("s", CType.Slice .Int32)]⟩
        (.At (.Ident "s") (.IntLit 3))
      = .ok (.Index (.Field (.Ident "s") "data") (.IntLit "3"), [],
          ⟨0, true, [], [], [], [("s", CType.Slice .Int32)]⟩)) := by
  constructor
  · have h := (C2_slice_bounds_check.1
      ⟨0, false, [], [], [], [("s", CType.Slice .Int32)]⟩
      (.Ident "s") (.IntLit 3) .Int32 (.Ident "s") []
      ⟨0, false, [], [], [], [("s", CType.Slice .Int32)]⟩ (.IntLit "3") []
      ⟨0, false, [], [], [], [("s", CType.Slice .Int32)]⟩
      (by simp [infer_expr_type, assoc_get])
      (by simp [lower_expr])
      (by simp [lower_expr]; rfl)).1 rfl
    simpa using h
  · have h := (C2_slice_bounds_check.1
      ⟨0, true, [], [], [], [("s", CType.Slice .Int32)]⟩
      (.Ident "s") (.IntLit 3) .Int32 (.Ident "s") []
      ⟨0, true, [], [], [], [("s", CType.Slice .Int32)]⟩ (.IntLit "3") []
      ⟨0, true, [], [], [], [("s", CType.Slice .Int32)]⟩
      (by simp [infer_expr_type, assoc_get])
      (by simp [lower_expr])
      (by simp [lower_expr]; rfl)).2 rfl
    simpa using h

/-- C8 (amended): lowering `a && b` emits the pre-statements of `a` and of
`b` first, then exactly a fresh bool temporary declaration followed by
`if (a) { tmp = b; } else { tmp = false; }` (symmetrically for `||`).  When
the lowering of `b` produces no pre-statements the overall shape is exactly
the declaration followed by the `if`; pre-statements of `b` (hoisted
temporaries, runtime checks) land before the `if` and so execute even when
`a` is false. -/
theorem C8_short_circuit (l : Lower) (a b : Expr) (tmp : String) (l1 : Lower)
    (ca : CExpr) (pa : List CStmt) (l2 : Lower)
    (cb : CExpr) (pb : List CStmt) (l3 : Lower)
    (ht : fresh_temp l = (tmp, l1))
    (ha : lower_expr l1 a = .ok (ca, pa, l2))
    (hb : lower_expr l2 b = .ok (cb, pb, l3)) :
    lower_expr l (.Binary .And a b)
      = .ok (.Ident tmp,
          pa ++ pb ++
            [CStmt.VarDecl tmp .Bool Option.none,
             CStmt.If ca [CStmt.Assign (.Ident tmp) cb]
               (Option.some [CStmt.Assign (.Ident tmp) (.BoolLit false)])],
          l3)
    ∧ lower_expr l (.Binary .Or a b)
      = .ok (.Ident tmp,
          pa ++ pb ++
            [CStmt.VarDecl tmp .Bool Option.none,
             CStmt.If ca [CStmt.Assign (.Ident tmp) (.BoolLit true)]
               (Option.some [CStmt.Assign (.Ident tmp) cb])],
          l3) := by
  constructor <;> simp [lower_expr, ht, ha, hb]

/-- Witness for C8 (amended) on `p && q` with plain identifiers, where both
operands lower without pre-statements and the emitted code is exactly the
declaration followed by the `if`. -/
theorem C8_short_circuit_witness :
    lower_expr ⟨0, false, [], [], [], []⟩ (.Binary .And (.Ident "p") (.Ident "q"))
      = .ok (.Ident "__tmp0",
          [CStmt.VarDecl "__tmp0" .Bool Option.none,
           CStmt.If (.Ident "p") [CStmt.Assign (.Ident "__tmp0") (.Ident "q")]
             (Option.some [CStmt.Assign (.Ident "__tmp0") (.BoolLit false)])],
          ⟨1, false, [], [], [], []⟩) := by
  have h := (C8_short_circuit ⟨0, false, [], [], [], []⟩
    (.Ident "p") (.Ident "q") "__tmp0" ⟨1, false, [], [], [], []⟩
    (.Ident "p") [] ⟨1, false, [], [], [], []⟩
    (.Ident "q") [] ⟨1, false, [], [], [], []⟩
    (by simp [fresh_temp]; rfl)
    (by simp [lower_expr]) (by simp [lower_expr])).1
  simpa using h

/-- The right operand used by the C8 counterexample:
`((x / y) == 0)`, whose lowering hoists a divide-by-zero check. -/
def C8_example_rhs : Expr :=
  .Paren (.Binary .Eq (.Paren (.Binary .Div (.Ident "x") (.Ident "y")))
    (.IntLit 0))

/-- C8 counterexample: lowering `a && ((x / y) == 0)` in safe context emits
three statements, with the divide-by-zero trap on `y` — which originates
from the right operand — placed before the conditional, so it executes even
when `a` is false; in particular the emitted sequence is not of the claimed
two-statement shape (a declaration followed by the `if`). -/
theorem C8_short_circuit_counterexample :
    lower_expr ⟨0, false, [], [], [], []⟩ (.Binary .And (.Ident "a") C8_example_rhs)
      = .ok (.Ident "__tmp0",
          [checks.div_zero_check (.Ident "y"),
           CStmt.VarDecl "__tmp0" .Bool Option.none,
           CStmt.If (.Ident "a")
             [CStmt.Assign (.Ident "__tmp0")
               (.Paren (.Binary .Eq
                 (.Paren (.Binary .Div (.Ident "x") (.Ident "y")))
                 (.IntLit "0")))]
             (Option.some [CStmt.Assign (.Ident "__tmp0") (.BoolLit false)])],
          ⟨1, false, [], [], [], []⟩)
    ∧ [checks.div_zero_check (.Ident "y"),
       CStmt.VarDecl "__tmp0" .Bool Option.none,
       CStmt.If (.Ident "a")
         [CStmt.Assign (.Ident "__tmp0")
           (.Paren (.Binary .Eq
             (.Paren (.Binary .Div (.Ident "x") (.Ident "y")))
             (.IntLit "0")))]
         (Option.some [CStmt.Assign (.Ident "__tmp0")
           (.BoolLit false)])].length ≠ 2 := by
  refine ⟨?_, by simp⟩
  simp [lower_expr, C8_example_rhs, fresh_temp]
  decide

/-- C10: the lowerer maps `for`, `defer`, `break` and `continue` statements
to the empty C statement list, leaving the state untouched and producing no
failure (the lowering pass has no diagnostics; its only failure mode is the
array-size panic). -/
theorem C10_dropped_statements :
    (∀ (l : Lower) init cond step body,
      lower_stmt l (.For init cond step body) = .ok ([], l))
    ∧ (∀ (l : Lower) body, lower_stmt l (.Defer body) = .ok ([], l))
    ∧ (∀ (l : Lower), lower_stmt l .Break = .ok ([], l))
    ∧ (∀ (l : Lower), lower_stmt l .Continue = .ok ([], l)) := by
  refine ⟨?_, ?_, ?_, ?_⟩ <;> intros <;> simp [lower_stmt]

/-- C4: the claim demands that lowering an `arr(T, N)` size outside the
supported constant subset be reported as a failure, but the source
`Lower::eval_const_size` executes `panic!` there (modelled as
`Except.error` carrying the panic message): a named constant or a negative
size aborts the process instead of producing a `CompileError`. -/
theorem C4_eval_const_size_panics :
    eval_const_size (.Ident "N")
      = .error "unsupported constant expression in array size"
    ∧ eval_const_size (.Unary .Neg (.IntLit 3))
      = .error "array size cannot be negative"
    ∧ lower_type (.Arr (.Primitive .I32) (.Ident "N"))
      = .error "unsupported constant expression in array size"
    ∧ lower_stmt Lower.new
        (.Let "a" (.Arr (.Primitive .I32) (.Ident "N")) (.IntLit 0))
      = .error "unsupported constant expression in array size" := by
  refine ⟨rfl, ?_, ?_, ?_⟩
  · simp [eval_const_size]
  · simp [lower_type, eval_const_size]
  · simp [lower_stmt, lower_type, eval_const_size]

/-! ## Claims about typedef generation and determinism -/

instance : IsTotal CDecl cdecl_le :=
  ⟨fun a b => total_of str_ord a.get_name b.get_name⟩

instance : IsTrans CDecl cdecl_le :=
  ⟨fun _ _ _ h1 h2 => Trans.trans (r := str_ord) (s := str_ord) h1 h2⟩

/-- Characterization of the `insert(0, …)` loop: inserting the elements of a
list one by one at the front lays them down in reverse order. -/
theorem insert_each_at_front_eq (make : String → Option CDecl) :
    ∀ (names : List String) (defs : List CDecl),
      insert_each_at_front make names defs
        = (names.filterMap make).reverse ++ defs
  | [], _ => rfl
  | n :: ns, defs => by
    cases h : make n with
    | none =>
      have ih := insert_each_at_front_eq make ns defs
      simp only [insert_each_at_front, List.foldl_cons, h,
        List.filterMap_cons] at ih ⊢
      simpa [h] using ih
    | some d =>
      have ih := insert_each_at_front_eq make ns (d :: defs)
      simp only [insert_each_at_front, List.foldl_cons, h,
        List.filterMap_cons] at ih ⊢
      simp [h, ih]

/-- C7 (amended): user-declared type declarations are sorted ascending by
name, but each kind of generated typedef is prepended element-by-element
from its ascending-sorted name list, so the emitted front block holds the
`fc_res_*` structs first, then `fc_opt_*`, then `fc_slice_*`, each kind in
descending (reverse-lexicographic) name order. -/
theorem C7_typedef_ordering (slice_types opt_types res_types : List String)
    (type_defs : List CDecl) :
    generate_opt_res_typedefs slice_types opt_types res_types type_defs
      = ((sort_strings res_types).filterMap make_res_typedef).reverse
        ++ (((sort_strings opt_types).filterMap make_opt_typedef).reverse
        ++ (((sort_strings (slice_types.filter
              (fun t => !builtin_slice_types.contains t))).filterMap
                make_slice_typedef).reverse
        ++ type_defs))
    ∧ (sort_type_defs type_defs).Perm type_defs
    ∧ List.Sorted cdecl_le (sort_type_defs type_defs) := by
  refine ⟨?_, List.perm_insertionSort _ _, List.sorted_insertionSort _ _⟩
  simp [generate_opt_res_typedefs, insert_each_at_front_eq]

/-- C7 counterexample: with the two generated slice typedefs for `bool` and
for a user struct `MyStruct`, the front of the declaration list comes out as
`fc_slice_bool` before `fc_slice_MyStruct`, which is not lexicographically
sorted (`fc_slice_bool` does not precede `fc_slice_MyStruct`: `M` < `b`). -/
theorem C7_typedef_ordering_counterexample :
    (generate_opt_res_typedefs ["bool", "MyStruct"] [] [] []).map CDecl.get_name
      = ["fc_slice_bool", "fc_slice_MyStruct"]
    ∧ str_le "fc_slice_bool" "fc_slice_MyStruct" = false := by
  exact ⟨rfl, rfl⟩

/-- C1: the emitted declaration list does not depend on the iteration order
of the three `HashSet<String>` typedef trackers — the only hash-ordered
containers whose traversal reaches the output — because each set is sorted
by the stable string key before emission.  Together with the pass being a
pure function of the AST, `compile(S, filename)` is deterministic. -/
theorem C1_determinism (s₁ s₂ o₁ o₂ r₁ r₂ : List String)
    (type_defs : List CDecl)
    (hs : s₁.Perm s₂) (ho : o₁.Perm o₂) (hr : r₁.Perm r₂) :
    generate_opt_res_typedefs s₁ o₁ r₁ type_defs
      = generate_opt_res_typedefs s₂ o₂ r₂ type_defs := by
  unfold generate_opt_res_typedefs
  rw [sort_strings_perm_eq (hs.filter _), sort_strings_perm_eq ho,
    sort_strings_perm_eq hr]

/-- Witness for C1: two different iteration orders of the same typedef sets
generate identical declaration lists. -/
theorem C1_determinism_witness :
    generate_opt_res_typedefs ["bool", "Pt"] ["int32_t"] [] []
      = generate_opt_res_typedefs ["Pt", "bool"] ["int32_t"] [] [] :=
  C1_determinism ["bool", "Pt"] ["Pt", "bool"] ["int32_t"] ["int32_t"] [] [] []
    (by decide) (by decide) (by decide)

/-! ## Diagnostics (src/crates/fastc/src/diag/errors.rs)

Spans and the carried source text are rendering data and are omitted; a
diagnostic is its kind, message and optional hint.  The source's `Type`
variant is spelled `TypeErr` (`Type` is a Lean keyword). -/

inductive CompileError where
  | Parse (message : String) (hint : Option String)
  | Resolve (message : String) (hint : Option String)
  | TypeErr (message : String) (hint : Option String)
  | Safety (message : String) (hint : Option String)
  | Multiple (errors : List CompileError)

/-- `CompileError::parse`. -/
def CompileError.parse (message : String) : CompileError :=
  .Parse message Option.none

/-- `CompileError::parse_with_hint`. -/
def CompileError.parse_with_hint (message hint : String) : CompileError :=
  .Parse message (Option.some hint)

/-- `CompileError::resolve`. -/
def CompileError.resolve (message : String) : CompileError :=
  .Resolve message Option.none

/-- `CompileError::type_error`. -/
def CompileError.type_error (message : String) : CompileError :=
  .TypeErr message Option.none

/-- `CompileError::type_error_with_hint`. -/
def CompileError.type_error_with_hint (message hint : String) : CompileError :=
  .TypeErr message (Option.some hint)

/-- `CompileError::safety`. -/
def CompileError.safety (message : String) : CompileError :=
  .Safety message Option.none

/-- `CompileError::multiple`: collapses a singleton and panics on an empty
list (the panic is the `Except.error`). -/
def CompileError.multiple : List CompileError → Except String CompileError
  | [] => .error "Cannot create error from empty error list"
  | [e] => .ok e
  | errors => .ok (.Multiple errors)

/-! ## Unsafe tracking (src/crates/fastc/src/typecheck/safety.rs) -/

/-- `SafetyContext`: a stack of unsafe contexts, bottom first as in the
source `Vec`. -/
structure SafetyContext where
  unsafe_stack : List Bool

/-- `SafetyContext::new`: start in safe context. -/
def SafetyContext.new : SafetyContext := ⟨[false]⟩

/-- `SafetyContext::enter_unsafe`. -/
def SafetyContext.enter_unsafe (c : SafetyContext) : SafetyContext :=
  ⟨c.unsafe_stack ++ [true]⟩

/-- `SafetyContext::exit_unsafe`. -/
def SafetyContext.exit_unsafe (c : SafetyContext) : SafetyContext :=
  ⟨c.unsafe_stack.dropLast⟩

/-- `SafetyContext::is_unsafe`: the top of the stack, `false` when empty. -/
def SafetyContext.is_unsafe (c : SafetyContext) : Bool :=
  (c.unsafe_stack.getLast?).getD false

/-! ## Symbol table (src/crates/fastc/src/resolve/scope.rs)

The `IndexMap` of a scope is an insertion-ordered map: embedded as a list of
pairs, with `define` appending (when the key is absent) and `lookup_local`
taking the first hit. -/

/-- Kind of symbol. -/
inductive SymbolKind where
  | Variable
  | Function ( is_unsafe : Bool)
  | Struct
  | Enum
  | Constant
  | Opaque
deriving DecidableEq, Repr

/-- A symbol in the symbol table, span dropped. -/
structure Symbol where
  name : String
  kind : SymbolKind
  ty : TypeExpr

/-- A scope: its symbols and the index of its parent. -/
structure Scope where
  symbols : List (String × Symbol)
  parent : Option Nat

/-- `Scope::new`. -/
def Scope.new (parent : Option Nat) : Scope := ⟨[], parent⟩

/-- `Scope::lookup_local`. -/
def Scope.lookup_local (s : Scope) (name : String) : Option Symbol :=
  assoc_get s.symbols name

/-- `Scope::define`.  The source returns `Err(symbol)` on a duplicate; every
embedded caller discards that result (`let _ = …`), so the embedding keeps
just the updated scope. -/
def Scope.define (s : Scope) (sym : Symbol) : Scope :=
  if (s.lookup_local sym.name).isSome then s
  else ⟨s.symbols ++ [(sym.name, sym)], s.parent⟩

/-- `SymbolTable`: a vector of scopes and the current index. -/
structure SymbolTable where
  scopes : List Scope
  current : Nat

/-- `SymbolTable::new` (the `define_builtins` call is a no-op). -/
def SymbolTable.new : SymbolTable := ⟨[Scope.new Option.none], 0⟩

/-- `SymbolTable::enter_scope`. -/
def SymbolTable.enter_scope (st : SymbolTable) : SymbolTable :=
  ⟨st.scopes ++ [Scope.new (Option.some st.current)], st.scopes.length⟩

/-- `SymbolTable::exit_scope`. -/
def SymbolTable.exit_scope (st : SymbolTable) : SymbolTable :=
  match (st.scopes.get? st.current).bind Scope.parent with
  | Option.some p => { st with current := p }
  | Option.none => st

/-- `SymbolTable::define`: define a symbol in the current scope. -/
def SymbolTable.define (st : SymbolTable) (sym : Symbol) : SymbolTable :=
  match st.scopes.get? st.current with
  | Option.some sc => { st with scopes := st.scopes.set st.current (sc.define sym) }
  | Option.none => st

/-- The parent walk of `SymbolTable::lookup`.  The source loop terminates
because parent indices strictly decrease in every table the resolver builds;
the fuel `scopes.length` covers any such chain. -/
def SymbolTable.lookup_from : Nat → SymbolTable → Nat → String → Option Symbol
  | 0, _, _, _ => Option.none
  | fuel + 1, st, idx, name =>
    match st.scopes.get? idx with
    | Option.none => Option.none
    | Option.some sc =>
      match sc.lookup_local name with
      | Option.some sym => Option.some sym
      | Option.none =>
        match sc.parent with
        | Option.some p => SymbolTable.lookup_from fuel st p name
        | Option.none => Option.none

/-- `SymbolTable::lookup`: search through parent scopes. -/
def SymbolTable.lookup (st : SymbolTable) (name : String) : Option Symbol :=
  SymbolTable.lookup_from st.scopes.length st st.current name

/-! ## Debug formatting

The type checker interpolates types into its messages with Rust's `{:?}`;
these functions render the derived `Debug` output of `TypeExpr`,
`ConstExpr` and `Vec<String>`. -/

/-- `Debug` name of a primitive type. -/
def fmt_primitive : PrimitiveType → String
  | .I8 => "I8" | .I16 => "I16" | .I32 => "I32" | .I64 => "I64"
  | .U8 => "U8" | .U16 => "U16" | .U32 => "U32" | .U64 => "U64"
  | .F32 => "F32" | .F64 => "F64" | .Bool => "Bool"
  | .Usize => "Usize" | .Isize => "Isize"

/-- `Debug` name of a binary operator. -/
def fmt_binop : BinOp → String
  | .Add => "Add" | .Sub => "Sub" | .Mul => "Mul" | .Div => "Div"
  | .Rem => "Rem"
  | .Eq => "Eq" | .Ne => "Ne" | .Lt => "Lt" | .Le => "Le"
  | .Gt => "Gt" | .Ge => "Ge"
  | .And => "And" | .Or => "Or"
  | .BitAnd => "BitAnd" | .BitOr => "BitOr" | .BitXor => "BitXor"
  | .Shl => "Shl" | .Shr => "Shr"

/-- `Debug` name of a unary operator. -/
def fmt_unaryop : UnaryOp → String
  | .Neg => "Neg" | .Not => "Not" | .BitNot => "BitNot"

mutual
/-- Derived `Debug` output of a `TypeExpr`. -/
def fmt_type : TypeExpr → String
  | .Primitive p => "Primitive(" ++ fmt_primitive p ++ ")"
  | .Named n => "Named(\"" ++ n ++ "\")"
  | .Ref t => "Ref(" ++ fmt_type t ++ ")"
  | .Mref t => "Mref(" ++ fmt_type t ++ ")"
  | .Raw t => "Raw(" ++ fmt_type t ++ ")"
  | .Rawm t => "Rawm(" ++ fmt_type t ++ ")"
  | .Own t => "Own(" ++ fmt_type t ++ ")"
  | .Slice t => "Slice(" ++ fmt_type t ++ ")"
  | .Arr t c => "Arr(" ++ fmt_type t ++ ", " ++ fmt_const c ++ ")"
  | .Opt t => "Opt(" ++ fmt_type t ++ ")"
  | .Res a b => "Res(" ++ fmt_type a ++ ", " ++ fmt_type b ++ ")"
  | .Fn u ps r =>
    "Fn \x7b is_unsafe: " ++ (if u then "true" else "false")
      ++ ", params: [" ++ fmt_type_list ps ++ "], ret: " ++ fmt_type r ++ " \x7d"
  | .Void => "Void"

/-- Comma-separated `Debug` output of a type list. -/
def fmt_type_list : List TypeExpr → String
  | [] => ""
  | [t] => fmt_type t
  | t :: rest => fmt_type t ++ ", " ++ fmt_type_list rest

/-- Derived `Debug` output of a `ConstExpr` (floats print their literal
text). -/
def fmt_const : ConstExpr → String
  | .IntLit n => "IntLit(" ++ toString n ++ ")"
  | .FloatLit raw => "FloatLit(" ++ raw ++ ")"
  | .BoolLit b => "BoolLit(" ++ (if b then "true" else "false") ++ ")"
  | .Ident n => "Ident(\"" ++ n ++ "\")"
  | .Binary op l r =>
    "Binary \x7b op: " ++ fmt_binop op ++ ", lhs: " ++ fmt_const l
      ++ ", rhs: " ++ fmt_const r ++ " \x7d"
  | .Unary op e =>
    "Unary \x7b op: " ++ fmt_unaryop op ++ ", operand: " ++ fmt_const e ++ " \x7d"
  | .Paren inner => "Paren(" ++ fmt_const inner ++ ")"
  | .Cast ty e =>
    "Cast \x7b ty: " ++ fmt_type ty ++ ", expr: " ++ fmt_const e ++ " \x7d"
  | .CStr s => "CStr(\"" ++ s ++ "\")"
  | .Bytes s => "Bytes(\"" ++ s ++ "\")"
end

/-- Derived `Debug` output of a `Vec<String>`. -/
def fmt_string_list (l : List String) : String :=
  "[" ++ String.intercalate ", " (l.map (fun s => "\"" ++ s ++ "\"")) ++ "]"

/-! ## Type checker (src/crates/fastc/src/typecheck/mod.rs) -/

mutual
/-- `TypeChecker::types_compatible`: structural type equality, sizes of
arrays ignored. -/
def types_compatible : TypeExpr → TypeExpr → Bool
  | .Void, .Void => true
  | .Primitive a, .Primitive b => a == b
  | .Named a, .Named b => a == b
  | .Ref a, .Ref b => types_compatible a b
  | .Mref a, .Mref b => types_compatible a b
  | .Raw a, .Raw b => types_compatible a b
  | .Rawm a, .Rawm b => types_compatible a b
  | .Own a, .Own b => types_compatible a b
  | .Slice a, .Slice b => types_compatible a b
  | .Arr a _, .Arr b _ => types_compatible a b
  | .Opt a, .Opt b => types_compatible a b
  | .Res a1 a2, .Res b1 b2 => types_compatible a1 b1 && types_compatible a2 b2
  | .Fn u1 p1 r1, .Fn u2 p2 r2 =>
    u1 == u2 && p1.length == p2.length
      && types_compatible_list p1 p2 && types_compatible r1 r2
  | _, _ => false

/-- The `zip(..).all(..)` over the parameter lists of two function types. -/
def types_compatible_list : List TypeExpr → List TypeExpr → Bool
  | [], _ => true
  | _, [] => true
  | a :: as, b :: bs => types_compatible a b && types_compatible_list as bs
end

/-- `TypeChecker::is_bool`. -/
def is_bool : TypeExpr → Bool
  | .Primitive .Bool => true
  | _ => false

/-- `TypeChecker::is_integer`. -/
def is_integer : TypeExpr → Bool
  | .Primitive .I8 | .Primitive .I16 | .Primitive .I32 | .Primitive .I64
  | .Primitive .U8 | .Primitive .U16 | .Primitive .U32 | .Primitive .U64
  | .Primitive .Usize | .Primitive .Isize => true
  | _ => false

/-- `TypeChecker::is_numeric`. -/
def is_numeric (ty : TypeExpr) : Bool :=
  is_integer ty ||
    (match ty with
     | .Primitive .F32 | .Primitive .F64 => true
     | _ => false)

/-- `TypeChecker::can_cast`. -/
def can_cast (from_ty to_ty : TypeExpr) : Bool :=
  if is_numeric from_ty && is_numeric to_ty then true
  else
    match from_ty, to_ty with
    | .Ref _, .Raw _ => true
    | .Mref _, .Rawm _ => true
    | .Raw _, .Raw _ => true
    | .Rawm _, .Rawm _ => true
    | _, _ => false

/-- Type-checker state: the source struct minus the borrowed source text
(used only to build rendered diagnostics).  `enum_decls`/`struct_decls` are
the two `HashMap`s, as association lists. -/
structure TC where
  symbols : SymbolTable
  safety : SafetyContext
  current_fn_return_type : Option TypeExpr
  errors : List CompileError
  enum_decls : List (String × EnumDecl)
  struct_decls : List (String × StructDecl)

/-- `TypeChecker::error`. -/
def TC.error (ts : TC) (message : String) : TC :=
  { ts with errors := ts.errors ++ [CompileError.type_error message] }

/-- `TypeChecker::error_with_hint`. -/
def TC.error_with_hint (ts : TC) (message hint : String) : TC :=
  { ts with errors := ts.errors ++ [CompileError.type_error_with_hint message hint] }

/-- `TypeChecker::error_type_mismatch`. -/
def TC.error_type_mismatch (ts : TC) (expected actual : TypeExpr) : TC :=
  ts.error ("type mismatch: expected " ++ fmt_type expected
    ++ ", got " ++ fmt_type actual)

/-- `TypeChecker::check_assignable`. -/
def TC.check_assignable (ts : TC) (e : Expr) : TC :=
  match e with
  | .Ident _ => ts
  | .Deref _ => ts
  | .At _ _ => ts
  | .Field _ _ => ts
  | _ => ts.error "expression is not assignable"

/-- `TypeChecker::check_addressable`. -/
def TC.check_addressable (ts : TC) (e : Expr) : TC :=
  match e with
  | .Ident _ => ts
  | .Deref _ => ts
  | .At _ _ => ts
  | .Field _ _ => ts
  | _ => ts.error "cannot take address of expression"

mutual
/-- `TypeChecker::infer_expr`. -/
def infer_expr : TC → Expr → TypeExpr × TC
  | ts, .IntLit _ => (.Primitive .I32, ts)
  | ts, .FloatLit _ => (.Primitive .F64, ts)
  | ts, .BoolLit _ => (.Primitive .Bool, ts)
  | ts, .CStr _ => (.Raw (.Primitive .U8), ts)
  | ts, .Bytes _ => (.Slice (.Primitive .U8), ts)
  | ts, .Ident name =>
    (match ts.symbols.lookup name with
     | Option.some sym => (sym.ty, ts)
     | Option.none => (.Void, ts))
  | ts, .Binary op lhs rhs =>
    let (lhs_ty, ts1) := infer_expr ts lhs
    let (rhs_ty, ts2) := infer_expr ts1 rhs
    let ts3 :=
      if !types_compatible lhs_ty rhs_ty then ts2.error_type_mismatch lhs_ty rhs_ty
      else ts2
    (match op with
     | .Eq | .Ne | .Lt | .Le | .Gt | .Ge => (.Primitive .Bool, ts3)
     | .And | .Or =>
       let ts4 :=
         if !is_bool lhs_ty then
           ts3.error ("logical operator requires bool, got " ++ fmt_type lhs_ty)
         else ts3
       (.Primitive .Bool, ts4)
     | _ => (lhs_ty, ts3))
  | ts, .Unary op operand =>
    let (operand_ty, ts1) := infer_expr ts operand
    (match op with
     | .Neg =>
       let ts2 :=
         if !is_numeric operand_ty then
           ts1.error ("negation requires numeric type, got " ++ fmt_type operand_ty)
         else ts1
       (operand_ty, ts2)
     | .Not =>
       let ts2 :=
         if !is_bool operand_ty then
           ts1.error ("logical not requires bool, got " ++ fmt_type operand_ty)
         else ts1
       (.Primitive .Bool, ts2)
     | .BitNot =>
       let ts2 :=
         if !is_integer operand_ty then
           ts1.error ("bitwise not requires integer, got " ++ fmt_type operand_ty)
         else ts1
       (operand_ty, ts2))
  | ts, .Paren inner => infer_expr ts inner
  | ts, .Call callee args =>
    let (callee_ty, ts1) := infer_expr ts callee
    (match callee_ty with
     | .Fn u params ret =>
       let ts2 :=
         if u && !ts1.safety.is_unsafe then
           ts1.error_with_hint "call to unsafe function requires unsafe block"
             "wrap the call in an unsafe block: unsafe \x7b ... \x7d"
         else ts1
       let ts3 :=
         if args.length != params.length then
           ts2.error ("expected " ++ toString params.length
             ++ " arguments, got " ++ toString args.length)
         else ts2
       (ret, check_call_args ts3 args params)
     | _ =>
       (.Void, ts1.error ("cannot call non-function type " ++ fmt_type callee_ty)))
  | ts, .Field base _ =>
    let (base_ty, ts1) := infer_expr ts base
    (match base_ty with
     | .Named _ => (.Void, ts1)
     | _ =>
       (.Void, ts1.error ("field access on non-struct type " ++ fmt_type base_ty)))
  | ts, .Addr operand =>
    let (operand_ty, ts1) := infer_expr ts operand
    (.Ref operand_ty, ts1.check_addressable operand)
  | ts, .Deref operand =>
    let (operand_ty, ts1) := infer_expr ts operand
    (match operand_ty with
     | .Ref inner => (inner, ts1)
     | .Mref inner => (inner, ts1)
     | .Raw inner =>
       let ts2 :=
         if !ts1.safety.is_unsafe then
           ts1.error "dereference of raw pointer requires unsafe block"
         else ts1
       (inner, ts2)
     | .Rawm inner =>
       let ts2 :=
         if !ts1.safety.is_unsafe then
           ts1.error "dereference of raw pointer requires unsafe block"
         else ts1
       (inner, ts2)
     | _ =>
       (.Void,
        ts1.error ("cannot dereference non-pointer type " ++ fmt_type operand_ty)))
  | ts, .At base index =>
    let (base_ty, ts1) := infer_expr ts base
    let (index_ty, ts2) := infer_expr ts1 index
    let ts3 :=
      if !(match index_ty with | .Primitive .Usize => true | _ => false) then
        if !is_integer index_ty then
          ts2.error ("index must be integer, got " ++ fmt_type index_ty)
        else ts2
      else ts2
    (match base_ty with
     | .Slice inner => (inner, ts3)
     | .Arr inner _ => (inner, ts3)
     | _ =>
       (.Void, ts3.error ("cannot index non-array type " ++ fmt_type base_ty)))
  | ts, .Cast ty e =>
    let (e_ty, ts1) := infer_expr ts e
    let ts2 :=
      if !can_cast e_ty ty then
        ts1.error ("cannot cast " ++ fmt_type e_ty ++ " to " ++ fmt_type ty)
      else ts1
    (ty, ts2)
  | ts, .None ty => (.Opt ty, ts)
  | ts, .Some v =>
    let (inner_ty, ts1) := infer_expr ts v
    (.Opt inner_ty, ts1)
  | ts, .Ok v =>
    let (inner_ty, ts1) := infer_expr ts v
    (.Res inner_ty .Void, ts1)
  | ts, .Err v =>
    let (inner_ty, ts1) := infer_expr ts v
    (.Res .Void inner_ty, ts1)
  | ts, .StructLit name _ => (.Named name, ts)

/-- The `args.iter().zip(params.iter())` loop of the `Expr::Call` branch:
only the first `min` pairs are inferred and checked. -/
def check_call_args : TC → List Expr → List TypeExpr → TC
  | ts, [], _ => ts
  | ts, _ :: _, [] => ts
  | ts, arg :: args, p :: ps =>
    let (arg_ty, ts1) := infer_expr ts arg
    let ts2 :=
      if !types_compatible p arg_ty then ts1.error_type_mismatch p arg_ty
      else ts1
    check_call_args ts2 args ps
end

mutual
/-- `TypeChecker::check_stmt`. -/
def check_stmt : TC → Stmt → TC
  | ts, .Let name ty init =>
    let (init_ty, ts1) := infer_expr ts init
    let ts2 :=
      if !types_compatible ty init_ty then ts1.error_type_mismatch ty init_ty
      else ts1
    { ts2 with symbols := ts2.symbols.define ⟨name, .Variable, ty⟩ }
  | ts, .Assign lhs rhs =>
    let (lhs_ty, ts1) := infer_expr ts lhs
    let (rhs_ty, ts2) := infer_expr ts1 rhs
    let ts3 :=
      if !types_compatible lhs_ty rhs_ty then ts2.error_type_mismatch lhs_ty rhs_ty
      else ts2
    ts3.check_assignable lhs
  | ts, .If cond then_block else_block =>
    let (cond_ty, ts1) := infer_expr ts cond
    let ts2 :=
      if !is_bool cond_ty then
        ts1.error ("condition must be bool, got " ++ fmt_type cond_ty)
      else ts1
    let ts3 := check_block ts2 then_block
    (match else_block with
     | Option.some (.ElseIf s) => check_stmt ts3 s
     | Option.some (.Else b) => check_block ts3 b
     | Option.none => ts3)
  | ts, .IfLet name e then_block else_block =>
    let (expr_ty, ts1) := infer_expr ts e
    let (inner_ty, ts2) :=
      match expr_ty with
      | .Opt inner => (inner, ts1)
      | .Res ok _ => (ok, ts1)
      | _ =>
        ((.Void : TypeExpr),
         ts1.error ("if-let requires opt or res type, got " ++ fmt_type expr_ty))
    let ts3 := { ts2 with symbols := ts2.symbols.enter_scope }
    let ts4 := { ts3 with symbols := ts3.symbols.define ⟨name, .Variable, inner_ty⟩ }
    let ts5 := check_stmts ts4 then_block
    let ts6 := { ts5 with symbols := ts5.symbols.exit_scope }
    (match else_block with
     | Option.some b => check_block ts6 b
     | Option.none => ts6)
  | ts, .While cond body =>
    let (cond_ty, ts1) := infer_expr ts cond
    let ts2 :=
      if !is_bool cond_ty then
        ts1.error ("condition must be bool, got " ++ fmt_type cond_ty)
      else ts1
    check_block ts2 body
  | ts, .For init cond step body =>
    let ts1 := { ts with symbols := ts.symbols.enter_scope }
    let ts2 :=
      match init with
      | Option.some (.Let name ty i) =>
        let (init_ty, tsa) := infer_expr ts1 i
        let tsb :=
          if !types_compatible ty init_ty then tsa.error_type_mismatch ty init_ty
          else tsa
        { tsb with symbols := tsb.symbols.define ⟨name, .Variable, ty⟩ }
      | Option.some (.Assign lhs rhs) =>
        let (lhs_ty, tsa) := infer_expr ts1 lhs
        let (rhs_ty, tsb) := infer_expr tsa rhs
        if !types_compatible lhs_ty rhs_ty then tsb.error_type_mismatch lhs_ty rhs_ty
        else tsb
      | Option.some (.Call e) => (infer_expr ts1 e).2
      | Option.none => ts1
    let ts3 :=
      match cond with
      | Option.some c =>
        let (cond_ty, tsa) := infer_expr ts2 c
        if !is_bool cond_ty then
          tsa.error ("for condition must be bool, got " ++ fmt_type cond_ty)
        else tsa
      | Option.none => ts2
    let ts4 :=
      match step with
      | Option.some (.Assign lhs rhs) =>
        let (lhs_ty, tsa) := infer_expr ts3 lhs
        let (rhs_ty, tsb) := infer_expr tsa rhs
        if !types_compatible lhs_ty rhs_ty then tsb.error_type_mismatch lhs_ty rhs_ty
        else tsb
      | Option.some (.Call e) => (infer_expr ts3 e).2
      | Option.none => ts3
    let ts5 := check_stmts ts4 body
    { ts5 with symbols := ts5.symbols.exit_scope }
  | ts, .Switch e cases default =>
    let (expr_ty, ts1) := infer_expr ts e
    let ts2 :=
      if !is_integer expr_ty
          && !(match expr_ty with | .Named _ => true | _ => false) then
        ts1.error ("switch expression must be integer or enum, got "
          ++ fmt_type expr_ty)
      else ts1
    let ts3 :=
      match expr_ty with
      | .Named enum_name =>
        (match assoc_get ts2.enum_decls enum_name with
         | Option.some enum_decl =>
           let expected_variants := enum_decl.variants.map
             (fun v => enum_name ++ "_" ++ v.name)
           let covered_variants := cases.filterMap
             (fun c => match c.value with
               | .Ident name => Option.some name
               | _ => Option.none)
           let missing := expected_variants.filter
             (fun v => !covered_variants.contains v)
           if !missing.isEmpty && default.isNone then
             ts2.error ("non-exhaustive switch on enum '" ++ enum_name
               ++ "': missing variants " ++ fmt_string_list missing)
           else ts2
         | Option.none => ts2)
      | _ => ts2
    let ts4 := check_cases ts3 cases
    (match default with
     | Option.some default_stmts => check_stmts ts4 default_stmts
     | Option.none => ts4)
  | ts, .Return value =>
    let expected := ts.current_fn_return_type.getD .Void
    (match value with
     | Option.some v =>
       let (actual, ts1) := infer_expr ts v
       if !types_compatible expected actual then ts1.error_type_mismatch expected actual
       else ts1
     | Option.none =>
       match expected with
       | .Void => ts
       | _ => ts.error ("expected return value of type " ++ fmt_type expected))
  | ts, .Break => ts
  | ts, .Continue => ts
  | ts, .Defer body => check_block ts body
  | ts, .Expr e => (infer_expr ts e).2
  | ts, .Discard e => (infer_expr ts e).2
  | ts, .Unsafe body =>
    let ts1 := { ts with safety := ts.safety.enter_unsafe }
    let ts2 := check_block ts1 body
    { ts2 with safety := ts2.safety.exit_unsafe }
  | ts, .Block b => check_block ts b
termination_by _ s => (sizeOf s, 0)

/-- `TypeChecker::check_block`: enter a scope, check each statement, exit. -/
def check_block (ts : TC) (stmts : List Stmt) : TC :=
  let ts1 := { ts with symbols := ts.symbols.enter_scope }
  let ts2 := check_stmts ts1 stmts
  { ts2 with symbols := ts2.symbols.exit_scope }
termination_by (sizeOf stmts, 1)

/-- A `for stmt in …` loop of statement checks (no scope of its own). -/
def check_stmts : TC → List Stmt → TC
  | ts, [] => ts
  | ts, s :: rest => check_stmts (check_stmt ts s) rest
termination_by _ stmts => (sizeOf stmts, 0)

/-- The `for case in cases { for stmt in &case.stmts { … } }` loop of the
`Stmt::Switch` branch. -/
def check_cases : TC → List Case → TC
  | ts, [] => ts
  | ts, .mk _ stmts :: rest => check_cases (check_stmts ts stmts) rest
termination_by _ cases => (sizeOf cases, 0)
end

/-! ### The checker only ever appends diagnostics

`TypeChecker::infer_expr` pushes onto `self.errors` and never removes: every
state it returns carries the incoming error list as a prefix.  This backs
the claims that a particular diagnostic, once pushed, survives to the end of
the expression check. -/

theorem errors_grow_error (a : TC) (m : String) :
    a.errors <+: (a.error m).errors := by
  simp [TC.error]

theorem errors_grow_hint (a : TC) (m h : String) :
    a.errors <+: (a.error_with_hint m h).errors := by
  simp [TC.error_with_hint]

theorem errors_grow_mismatch (a : TC) (x y : TypeExpr) :
    a.errors <+: (a.error_type_mismatch x y).errors := by
  simp [TC.error_type_mismatch, TC.error]

theorem errors_grow_assignable (a : TC) (e : Expr) :
    a.errors <+: (a.check_assignable e).errors := by
  cases e <;> simp [TC.check_assignable, TC.error]

theorem errors_grow_addressable (a : TC) (e : Expr) :
    a.errors <+: (a.check_addressable e).errors := by
  cases e <;> simp [TC.check_addressable, TC.error]

theorem errors_grow_ite (c : Prop) [Decidable c] (a b₁ b₂ : TC)
    (h1 : a.errors <+: b₁.errors) (h2 : a.errors <+: b₂.errors) :
    a.errors <+: (if c then b₁ else b₂).errors := by
  split <;> assumption

set_option maxHeartbeats 2000000 in
theorem infer_expr_errors_mono :
    ∀ (ts : TC) (e : Expr), ts.errors <+: (infer_expr ts e).2.errors := by
  intro ts e
  induction ts, e using infer_expr.induct
    (motive_2 := fun ts args ps =>
      ts.errors <+: (check_call_args ts args ps).errors) <;>
    simp only [infer_expr, check_call_args, *] <;>
    (try simp_all only []) <;>
    repeat
      first
        | assumption
        | exact List.prefix_refl _
        | apply errors_grow_error
        | apply errors_grow_hint
        | apply errors_grow_mismatch
        | apply errors_grow_assignable
        | apply errors_grow_addressable
        | apply errors_grow_ite
        | refine List.IsPrefix.trans ?_
            (by first
              | apply errors_grow_error
              | apply errors_grow_hint
              | apply errors_grow_mismatch
              | apply errors_grow_assignable
              | apply errors_grow_addressable)
        | refine List.IsPrefix.trans (by assumption) ?_
        | refine List.IsPrefix.trans ?_ (by assumption)

theorem check_call_args_errors_mono :
    ∀ (ts : TC) (args : List Expr) (ps : List TypeExpr),
      ts.errors <+: (check_call_args ts args ps).errors
  | _, [], _ => List.prefix_refl _
  | _, _ :: _, [] => List.prefix_refl _
  | ts, arg :: args, p :: ps => by
    have h1 := infer_expr_errors_mono ts arg
    rcases hx : infer_expr ts arg with ⟨t, s⟩
    rw [hx] at h1
    have h2 := check_call_args_errors_mono
      (if (!types_compatible p t) = true then s.error_type_mismatch p t else s)
      args ps
    simp only [check_call_args, hx]
    exact List.IsPrefix.trans h1
      (List.IsPrefix.trans
        (errors_grow_ite _ _ _ _ (errors_grow_mismatch s p t) (List.prefix_refl _))
        h2)

/-! ### The unsafe-call diagnostic is never pushed in unsafe context

`TypeChecker::infer_expr` pushes the hinted diagnostic "call to unsafe
function requires unsafe block" only under `is_unsafe_fn &&
!self.safety.is_unsafe()`, and nothing in expression checking alters the
safety stack; so checking any expression while the stack reads unsafe
leaves the number of occurrences of that diagnostic unchanged. -/

/-- Whether a diagnostic is the unsafe-call diagnostic (same kind, message
and hint). -/
def is_unsafe_call_diag (d : CompileError) : Bool :=
  match d with
  | .TypeErr m (Option.some h) =>
    m == "call to unsafe function requires unsafe block"
      && h == "wrap the call in an unsafe block: unsafe \x7b ... \x7d"
  | _ => false

@[simp] theorem safety_error (a : TC) (m : String) :
    (a.error m).safety = a.safety := rfl

@[simp] theorem safety_hint (a : TC) (m h : String) :
    (a.error_with_hint m h).safety = a.safety := rfl

@[simp] theorem safety_mismatch (a : TC) (x y : TypeExpr) :
    (a.error_type_mismatch x y).safety = a.safety := rfl

@[simp] theorem safety_assignable (a : TC) (e : Expr) :
    (a.check_assignable e).safety = a.safety := by
  cases e <;> rfl

@[simp] theorem safety_addressable (a : TC) (e : Expr) :
    (a.check_addressable e).safety = a.safety := by
  cases e <;> rfl

@[simp] theorem count_unsafe_error (a : TC) (m : String) :
    (a.error m).errors.countP is_unsafe_call_diag
      = a.errors.countP is_unsafe_call_diag := by
  simp [TC.error, CompileError.type_error, is_unsafe_call_diag]

@[simp] theorem count_unsafe_mismatch (a : TC) (x y : TypeExpr) :
    (a.error_type_mismatch x y).errors.countP is_unsafe_call_diag
      = a.errors.countP is_unsafe_call_diag := by
  simp [TC.error_type_mismatch]

@[simp] theorem count_unsafe_assignable (a : TC) (e : Expr) :
    (a.check_assignable e).errors.countP is_unsafe_call_diag
      = a.errors.countP is_unsafe_call_diag := by
  cases e <;> simp [TC.check_assignable]

@[simp] theorem count_unsafe_addressable (a : TC) (e : Expr) :
    (a.check_addressable e).errors.countP is_unsafe_call_diag
      = a.errors.countP is_unsafe_call_diag := by
  cases e <;> simp [TC.check_addressable]

set_option maxHeartbeats 4000000 in
theorem infer_expr_unsafe_preserve :
    ∀ (ts : TC) (e : Expr),
      (infer_expr ts e).2.safety = ts.safety ∧
      (ts.safety.is_unsafe = true →
        (infer_expr ts e).2.errors.countP is_unsafe_call_diag
          = ts.errors.countP is_unsafe_call_diag) := by
  intro ts e
  induction ts, e using infer_expr.induct
    (motive_2 := fun ts args ps =>
      (check_call_args ts args ps).safety = ts.safety ∧
      (ts.safety.is_unsafe = true →
        (check_call_args ts args ps).errors.countP is_unsafe_call_diag
          = ts.errors.countP is_unsafe_call_diag)) <;>
    simp only [infer_expr, check_call_args, *] <;>
    (try simp_all only []) <;>
    all_goals refine ⟨?_, fun h => ?_⟩ <;>
    repeat
      first
        | rfl
        | assumption
        | (split <;> simp_all)
        | simp_all
        | (simp_all +zetaDelta)

/-! ## Claims about the type checker -/

/-- C3: calling through a function type marked unsafe while the safety stack
reads safe pushes the `Type` diagnostic "call to unsafe function requires
unsafe block" (with the wrap-in-unsafe hint) directly after the callee's
diagnostics, and it survives to the end of the call check; with the safety
stack reading unsafe, a nullary call adds no diagnostic at all, and a call
with any callee and any arguments leaves the number of occurrences of the
unsafe-call diagnostic in the error list unchanged — no such diagnostic is
emitted anywhere inside it.  Likewise `deref(p)` with `p : raw(T)` or
`rawm(T)` is rejected exactly outside unsafe context. -/
theorem C3_unsafe_discipline :
    (∀ (ts : TC) (callee : Expr) (params : List TypeExpr) (ret : TypeExpr)
        (ts1 : TC) (args : List Expr),
      infer_expr ts callee = (.Fn true params ret, ts1) →
      ts1.safety.is_unsafe = false →
      (infer_expr ts (.Call callee args)).1 = ret ∧
        ts1.errors ++ [CompileError.type_error_with_hint
            "call to unsafe function requires unsafe block"
            "wrap the call in an unsafe block: unsafe \x7b ... \x7d"]
          <+: (infer_expr ts (.Call callee args)).2.errors)
    ∧ (∀ (ts : TC) (callee : Expr) (ret : TypeExpr) (ts1 : TC),
      infer_expr ts callee = (.Fn true [] ret, ts1) →
      ts1.safety.is_unsafe = true →
      infer_expr ts (.Call callee []) = (ret, ts1))
    ∧ (∀ (ts : TC) (p : Expr) (inner : TypeExpr) (ts1 : TC),
      infer_expr ts p = (.Raw inner, ts1) →
      (ts1.safety.is_unsafe = false →
        infer_expr ts (.Deref p)
          = (inner, ts1.error "dereference of raw pointer requires unsafe block"))
      ∧ (ts1.safety.is_unsafe = true → infer_expr ts (.Deref p) = (inner, ts1)))
    ∧ (∀ (ts : TC) (p : Expr) (inner : TypeExpr) (ts1 : TC),
      infer_expr ts p = (.Rawm inner, ts1) →
      (ts1.safety.is_unsafe = false →
        infer_expr ts (.Deref p)
          = (inner, ts1.error "dereference of raw pointer requires unsafe block"))
      ∧ (ts1.safety.is_unsafe = true →
        infer_expr ts (.Deref p) = (inner, ts1)))
    ∧ (∀ (ts : TC) (callee : Expr) (args : List Expr),
      ts.safety.is_unsafe = true →
      (infer_expr ts (.Call callee args)).2.errors.countP is_unsafe_call_diag
        = ts.errors.countP is_unsafe_call_diag) := by
  refine ⟨?_, ?_, ?_, ?_, ?_⟩
  · intro ts callee params ret ts1 args h hsafe
    simp only [infer_expr, h, hsafe]
    constructor
    · simp
    · refine List.IsPrefix.trans ?_ (check_call_args_errors_mono _ args params)
      refine List.IsPrefix.trans ?_
        (errors_grow_ite _ _ _ _ (errors_grow_error _ _) (List.prefix_refl _))
      simp [TC.error_with_hint, CompileError.type_error_with_hint]
  · intro ts callee ret ts1 h hsafe
    simp [infer_expr, h, hsafe, check_call_args]
  · intro ts p inner ts1 h
    constructor <;> intro hs <;> simp [infer_expr, h, hs]
  · intro ts p inner ts1 h
    constructor <;> intro hs <;> simp [infer_expr, h, hs]
  · intro ts callee args h
    exact (infer_expr_unsafe_preserve ts (.Call callee args)).2 h

/-- The symbol table of the C3 witness: an unsafe nullary function `danger`,
an unsafe unary function `danger2`, a variable `p : raw(i32)` and a variable
`q : rawm(i32)` in the global scope. -/
def C3_example_symbols : SymbolTable :=
  ⟨[⟨[("danger", ⟨"danger", .Function true, .Fn true [] (.Primitive .I32)⟩),
      ("danger2",
       ⟨"danger2", .Function true, .Fn true [.Primitive .I32] (.Primitive .I32)⟩),
      ("p", ⟨"p", .Variable, .Raw (.Primitive .I32)⟩),
      ("q", ⟨"q", .Variable, .Rawm (.Primitive .I32)⟩)], Option.none⟩], 0⟩

/-- C3 witness state in safe context. -/
def C3_safe : TC :=
  ⟨C3_example_symbols, SafetyContext.new, Option.none, [], [], []⟩

/-- C3 witness state inside an unsafe region (after `enter_unsafe`). -/
def C3_inside : TC :=
  ⟨C3_example_symbols, SafetyContext.new.enter_unsafe, Option.none, [], [], []⟩

/-- Witness for C3: `danger()` rejected in safe context and accepted in
unsafe context; `deref(p)` / `deref(q)` likewise; the with-argument call
`danger2(1)` checked in unsafe context leaves the unsafe-call diagnostic
count unchanged. -/
theorem C3_unsafe_discipline_witness :
    ([CompileError.type_error_with_hint
        "call to unsafe function requires unsafe block"
        "wrap the call in an unsafe block: unsafe \x7b ... \x7d"]
      <+: (infer_expr C3_safe (.Call (.Ident "danger") [])).2.errors)
    ∧ infer_expr C3_inside (.Call (.Ident "danger") [])
        = (.Primitive .I32, C3_inside)
    ∧ infer_expr C3_safe (.Deref (.Ident "p"))
        = (.Primitive .I32,
           C3_safe.error "dereference of raw pointer requires unsafe block")
    ∧ infer_expr C3_inside (.Deref (.Ident "q")) = (.Primitive .I32, C3_inside)
    ∧ (infer_expr C3_inside (.Call (.Ident "danger2") [.IntLit 1])).2.errors.countP
          is_unsafe_call_diag
        = C3_inside.errors.countP is_unsafe_call_diag := by
  refine ⟨?_, ?_, ?_, ?_, ?_⟩
  · have h := (C3_unsafe_discipline.1 C3_safe (.Ident "danger") []
      (.Primitive .I32) C3_safe []
      (by simp [infer_expr, C3_safe, C3_example_symbols, SymbolTable.lookup,
        SymbolTable.lookup_from, Scope.lookup_local, assoc_get])
      rfl).2
    simpa [C3_safe] using h
  · exact C3_unsafe_discipline.2.1 C3_inside (.Ident "danger")
      (.Primitive .I32) C3_inside
      (by simp [infer_expr, C3_inside, C3_example_symbols, SymbolTable.lookup,
        SymbolTable.lookup_from, Scope.lookup_local, assoc_get])
      rfl
  · exact (C3_unsafe_discipline.2.2.1 C3_safe (.Ident "p")
      (.Primitive .I32) C3_safe
      (by simp [infer_expr, C3_safe, C3_example_symbols, SymbolTable.lookup,
        SymbolTable.lookup_from, Scope.lookup_local, assoc_get])).1
      rfl
  · exact (C3_unsafe_discipline.2.2.2.1 C3_inside (.Ident "q")
      (.Primitive .I32) C3_inside
      (by simp [infer_expr, C3_inside, C3_example_symbols, SymbolTable.lookup,
        SymbolTable.lookup_from, Scope.lookup_local, assoc_get])).2
      rfl
  · exact C3_unsafe_discipline.2.2.2.2 C3_inside (.Ident "danger2")
      [.IntLit 1] rfl

/-- The symbol table of the C2 counterexample:
`g : fn(slice(i32)) -> slice(i32)` and `s : slice(i32)` in the global
scope. -/
def C2_counterexample_symbols : SymbolTable :=
  ⟨[⟨[("g",
       ⟨"g", .Function false,
        .Fn false [.Slice (.Primitive .I32)] (.Slice (.Primitive .I32))⟩),
      ("s", ⟨"s", .Variable, .Slice (.Primitive .I32)⟩)], Option.none⟩], 0⟩

/-- The typechecker state of the C2 counterexample. -/
def C2_counterexample_state : TC :=
  ⟨C2_counterexample_symbols, SafetyContext.new, Option.none, [], [], []⟩

/-- C2 counterexample: `at(g(s), 0)` in safe context, where `g(s)` has type
`slice(i32)` according to the type checker (first conjunct, with no
diagnostic).  `Lower::infer_expr_type` returns `Void` for the call, so the
safe-context lowering emits the plain `g(s)[0]` — no bounds-check statement
and no `.data` access — refuting the claim that every slice-typed base is
bounds-checked in safe code. -/
theorem C2_slice_bounds_check_counterexample :
    infer_expr C2_counterexample_state (.Call (.Ident "g") [.Ident "s"])
      = (.Slice (.Primitive .I32), C2_counterexample_state)
    ∧ lower_expr ⟨0, false, [], [], [], [("s", CType.Slice .Int32)]⟩
        (.At (.Call (.Ident "g") [.Ident "s"]) (.IntLit 0))
      = .ok (.Index (.Call (.Ident "g") [.Ident "s"]) (.IntLit "0"), [],
          ⟨0, false, [], [], [], [("s", CType.Slice .Int32)]⟩) := by
  constructor
  · simp [infer_expr, check_call_args, C2_counterexample_state,
      C2_counterexample_symbols, SymbolTable.lookup, SymbolTable.lookup_from,
      Scope.lookup_local, assoc_get, types_compatible]
  · simp [lower_expr, lower_call_args, infer_expr_type, has_side_effects]
    rfl

/-- The covered-variant names of a switch: the `ConstExpr::Ident` case
values (the source collects them into a `HashSet`; membership is what
matters). -/
def switch_covered_variants (cases : List Case) : List String :=
  cases.filterMap (fun c =>
    match c.value with
    | .Ident n => Option.some n
    | _ => Option.none)

/-- The declared variant names the case arms do not cover (the source's
`expected_variants.difference(&covered_variants)`). -/
def switch_missing_variants (enum_name : String) (decl : EnumDecl)
    (cases : List Case) : List String :=
  (decl.variants.map (fun v => enum_name ++ "_" ++ v.name)).filter
    (fun v => !(switch_covered_variants cases).contains v)

/-- Checking a list of cases with empty bodies changes nothing. -/
theorem check_cases_empty_bodies :
    ∀ (ts : TC) (values : List ConstExpr),
      check_cases ts (values.map (fun v => Case.mk v [])) = ts
  | _, [] => by simp [check_cases]
  | ts, _ :: rest => by
    simp only [List.map_cons, check_cases, check_stmts]
    exact check_cases_empty_bodies ts rest

/-- C5 (amended): a `switch` on a declared enum type with no default arm
fails if and only if some declared variant is missing from the set of
`Enum_Variant` identifiers referenced by the case arms; the missing variants
are reported in the diagnostic.  Covered names outside the declared variant
set are ignored — a strict superset of the declared set passes — and any
default arm suppresses the check. -/
theorem C5_enum_exhaustiveness (ts : TC) (scrutinee : Expr)
    (enum_name : String) (decl : EnumDecl) (ts1 : TC) (values : List ConstExpr)
    (h : infer_expr ts scrutinee = (.Named enum_name, ts1))
    (hd : assoc_get ts1.enum_decls enum_name = Option.some decl) :
    (check_stmt ts
        (.Switch scrutinee (values.map (fun v => Case.mk v [])) Option.none)
      = if (!(switch_missing_variants enum_name decl
            (values.map (fun v => Case.mk v []))).isEmpty) = true
        then ts1.error ("non-exhaustive switch on enum '" ++ enum_name
          ++ "': missing variants "
          ++ fmt_string_list (switch_missing_variants enum_name decl
               (values.map (fun v => Case.mk v []))))
        else ts1)
    ∧ check_stmt ts
        (.Switch scrutinee (values.map (fun v => Case.mk v []))
          (Option.some [])) = ts1 := by
  constructor
  · simp only [check_stmt, h, hd, is_integer, check_cases_empty_bodies,
      switch_missing_variants, switch_covered_variants, Case.value,
      Option.isNone_none, Bool.and_true]
    split <;> split <;> first | rfl | simp_all
  · simp only [check_stmt, h, hd, is_integer, check_cases_empty_bodies,
      Option.isNone_some, Bool.and_false, check_stmts]
    simp [check_cases_empty_bodies, hd]

/-- The enum and state of the C5 counterexample: `enum Color { Red }` and a
scrutinee `x : Color`. -/
def C5_example_enum : EnumDecl :=
  ⟨Option.none, "Color", [⟨"Red", Option.none⟩]⟩

/-- C5 counterexample state. -/
def C5_example_state : TC :=
  ⟨⟨[⟨[("x", ⟨"x", .Variable, .Named "Color"⟩)], Option.none⟩], 0⟩,
   SafetyContext.new, Option.none, [], [("Color", C5_example_enum)], []⟩

/-- C5 counterexample: the case arms reference `Color_Red` and `Color_Green`
while `Color` declares only `Red` — the covered set differs from the
declared set, yet the checker emits no diagnostic (it only tests for missing
variants), so type checking succeeds where the claim requires failure. -/
theorem C5_enum_exhaustiveness_counterexample :
    check_stmt C5_example_state
      (.Switch (.Ident "x")
        [Case.mk (.Ident "Color_Red") [], Case.mk (.Ident "Color_Green") []]
        Option.none)
      = C5_example_state
    ∧ ¬ ("Color_Green" ∈ (["Color_Red"] : List String)) := by
  constructor
  · simp [check_stmt, infer_expr, check_cases, check_stmts,
      C5_example_state, C5_example_enum, SymbolTable.lookup,
      SymbolTable.lookup_from, Scope.lookup_local, assoc_get, is_integer,
      Case.value]
  · decide

/-- The enum and state of the C5 witness: `enum Color { Red, Green }` with a
scrutinee `x : Color`. -/
def C5_witness_enum : EnumDecl :=
  ⟨Option.none, "Color", [⟨"Red", Option.none⟩, ⟨"Green", Option.none⟩]⟩

/-- C5 witness state. -/
def C5_witness_state : TC :=
  ⟨⟨[⟨[("x", ⟨"x", .Variable, .Named "Color"⟩)], Option.none⟩], 0⟩,
   SafetyContext.new, Option.none, [], [("Color", C5_witness_enum)], []⟩

/-- Witness for C5: covering only `Color_Red` of `Color { Red, Green }`
without default yields the non-exhaustive diagnostic naming `Color_Green`;
adding a default arm suppresses it. -/
theorem C5_enum_exhaustiveness_witness :
    check_stmt C5_witness_state
      (.Switch (.Ident "x") [Case.mk (.Ident "Color_Red") []] Option.none)
      = C5_witness_state.error
          "non-exhaustive switch on enum 'Color': missing variants [\"Color_Green\"]"
    ∧ check_stmt C5_witness_state
        (.Switch (.Ident "x") [Case.mk (.Ident "Color_Red") []]
          (Option.some [])) = C5_witness_state := by
  have h := C5_enum_exhaustiveness C5_witness_state (.Ident "x") "Color"
    C5_witness_enum C5_witness_state [.Ident "Color_Red"]
    (by simp [infer_expr, C5_witness_state, SymbolTable.lookup,
      SymbolTable.lookup_from, Scope.lookup_local, assoc_get])
    (by simp [C5_witness_state, assoc_get])
  exact ⟨h.1.trans (by rfl), h.2⟩

/-- C9 (amended): binary arithmetic and bitwise operators require only that
the two operand types be equal (a `type mismatch` diagnostic otherwise) and
give the expression the left operand's type — no numeric or integer
requirement is enforced for them, so `bool + bool` or `f64 << f64` pass;
unary `~` does require an integer operand. -/
theorem C9_operator_typing :
    (∀ (ts : TC) (op : BinOp) (lhs rhs : Expr) (lt rt : TypeExpr)
        (ts1 ts2 : TC),
      (op = .Add ∨ op = .Sub ∨ op = .Mul ∨ op = .Div ∨ op = .Rem
        ∨ op = .BitAnd ∨ op = .BitOr ∨ op = .BitXor ∨ op = .Shl ∨ op = .Shr) →
      infer_expr ts lhs = (lt, ts1) →
      infer_expr ts1 rhs = (rt, ts2) →
      infer_expr ts (.Binary op lhs rhs)
        = (lt, if types_compatible lt rt = true then ts2
               else ts2.error_type_mismatch lt rt))
    ∧ (∀ (ts : TC) (e : Expr) (t : TypeExpr) (ts1 : TC),
      infer_expr ts e = (t, ts1) →
      infer_expr ts (.Unary .BitNot e)
        = (t, if is_integer t = true then ts1
              else ts1.error ("bitwise not requires integer, got "
                ++ fmt_type t))) := by
  constructor
  · intro ts op lhs rhs lt rt ts1 ts2 hop h1 h2
    rcases hop with h | h | h | h | h | h | h | h | h | h <;> subst h <;>
      simp only [infer_expr, h1, h2] <;>
      cases hc : types_compatible lt rt <;> simp [hc]
  · intro ts e t ts1 h
    simp only [infer_expr, h]
    cases hi : is_integer t <;> simp [hi]

/-- The state of the C9 counterexample and witness: a fresh checker. -/
def C9_example_state : TC :=
  ⟨SymbolTable.new, SafetyContext.new, Option.none, [], [], []⟩

/-- C9 counterexample: `true + false` and `1.0 << 2.0` are accepted with no
diagnostic — the checker never tests numericness of `+`'s operands nor
integerness of `<<`'s, refuting the claimed rejection of `bool + bool`. -/
theorem C9_operator_typing_counterexample :
    infer_expr C9_example_state (.Binary .Add (.BoolLit true) (.BoolLit false))
      = (.Primitive .Bool, C9_example_state)
    ∧ infer_expr C9_example_state
        (.Binary .Shl (.FloatLit "1.0") (.FloatLit "2.0"))
      = (.Primitive .F64, C9_example_state) := by
  constructor <;> simp [infer_expr, types_compatible, C9_example_state]

/-- Witness for C9: the amended rule at concrete inputs — `bool + bool`
passes with result `bool`, while `~true` draws the integer-requirement
diagnostic. -/
theorem C9_operator_typing_witness :
    infer_expr C9_example_state (.Binary .Add (.BoolLit true) (.BoolLit false))
      = (.Primitive .Bool,
         if types_compatible (.Primitive .Bool) (.Primitive .Bool) = true
         then C9_example_state
         else C9_example_state.error_type_mismatch (.Primitive .Bool)
           (.Primitive .Bool))
    ∧ infer_expr C9_example_state (.Unary .BitNot (.BoolLit true))
      = (.Primitive .Bool,
         C9_example_state.error
           "bitwise not requires integer, got Primitive(Bool)") := by
  constructor
  · exact C9_operator_typing.1 C9_example_state .Add (.BoolLit true)
      (.BoolLit false) (.Primitive .Bool) (.Primitive .Bool)
      C9_example_state C9_example_state (Or.inl rfl)
      (by simp [infer_expr]) (by simp [infer_expr])
  · have h := C9_operator_typing.2 C9_example_state (.BoolLit true)
      (.Primitive .Bool) C9_example_state (by simp [infer_expr])
    simpa [is_integer, fmt_type, fmt_primitive] using h

/-! ## Tokens (src/crates/fastc/src/lexer/token.rs)

Numeric literal tokens carry their `i128` value as `Int`; `FloatLit` carries
the raw literal text (the parser re-reads the source slice for the raw text
anyway, and the `f64` payload is otherwise unused by the phases embedded
here); comment tokens carry their text. -/

inductive Token where
  | LineComment (s : String)
  | BlockComment (s : String)
  | Fn | Let | Const | Return | If | Else | While | For
  | Switch | Case | Default | Break | Continue | Defer | Unsafe
  | Struct | Enum | Opaque | Extern | Use | Mod | Pub
  | Void | Bool
  | I8 | I16 | I32 | I64 | U8 | U16 | U32 | U64 | F32 | F64
  | Usize | Isize
  | Ref | Mref | Raw | Rawm | Own | Slice | Arr | Opt | Res
  | Addr | Deref | At | Cast | Cstr | Bytes | Discard
  | None | Some | Ok_ | Err_
  | IsSome | IsNone | IsOk | IsErr
  | Unwrap | UnwrapOr | UnwrapErr | UnwrapChecked
  | ToRaw | ToRawm | FromRaw | FromRawm | FromRawUnchecked | FromRawmUnchecked
  | True | False
  | IntLit (n : Int) | HexLit (n : Int) | BinLit (n : Int) | OctLit (n : Int)
  | FloatLit (raw : String)
  | StringLit (s : String)
  | Ident (name : String)
  | AtRepr
  | Plus | Minus | Star | Slash | Percent
  | EqEq | NotEq | Lt | LtEq | Gt | GtEq
  | AndAnd | OrOr | Not
  | And | Or | Caret | Tilde | Shl | Shr
  | Eq
  | LParen | RParen | LBrace | RBrace | LBracket | RBracket
  | Comma | Colon | Semi | Dot | Arrow | ColonColon
  | Eof

/-- The constructor index of a token: what `std::mem::discriminant`
distinguishes.  Only injectivity across constructors matters. -/
def token_tag : Token → Nat
  | .LineComment _ => 0 | .BlockComment _ => 1
  | .Fn => 2 | .Let => 3 | .Const => 4 | .Return => 5 | .If => 6 | .Else => 7
  | .While => 8 | .For => 9 | .Switch => 10 | .Case => 11 | .Default => 12
  | .Break => 13 | .Continue => 14 | .Defer => 15 | .Unsafe => 16
  | .Struct => 17 | .Enum => 18 | .Opaque => 19 | .Extern => 20 | .Use => 21
  | .Mod => 22 | .Pub => 23
  | .Void => 24 | .Bool => 25
  | .I8 => 26 | .I16 => 27 | .I32 => 28 | .I64 => 29
  | .U8 => 30 | .U16 => 31 | .U32 => 32 | .U64 => 33
  | .F32 => 34 | .F64 => 35 | .Usize => 36 | .Isize => 37
  | .Ref => 38 | .Mref => 39 | .Raw => 40 | .Rawm => 41 | .Own => 42
  | .Slice => 43 | .Arr => 44 | .Opt => 45 | .Res => 46
  | .Addr => 47 | .Deref => 48 | .At => 49 | .Cast => 50 | .Cstr => 51
  | .Bytes => 52 | .Discard => 53
  | .None => 54 | .Some => 55 | .Ok_ => 56 | .Err_ => 57
  | .IsSome => 58 | .IsNone => 59 | .IsOk => 60 | .IsErr => 61
  | .Unwrap => 62 | .UnwrapOr => 63 | .UnwrapErr => 64 | .UnwrapChecked => 65
  | .ToRaw => 66 | .ToRawm => 67 | .FromRaw => 68 | .FromRawm => 69
  | .FromRawUnchecked => 70 | .FromRawmUnchecked => 71
  | .True => 72 | .False => 73
  | .IntLit _ => 74 | .HexLit _ => 75 | .BinLit _ => 76 | .OctLit _ => 77
  | .FloatLit _ => 78 | .StringLit _ => 79 | .Ident _ => 80
  | .AtRepr => 81
  | .Plus => 82 | .Minus => 83 | .Star => 84 | .Slash => 85 | .Percent => 86
  | .EqEq => 87 | .NotEq => 88 | .Lt => 89 | .LtEq => 90 | .Gt => 91
  | .GtEq => 92
  | .AndAnd => 93 | .OrOr => 94 | .Not => 95
  | .And => 96 | .Or => 97 | .Caret => 98 | .Tilde => 99 | .Shl => 100
  | .Shr => 101
  | .Eq => 102
  | .LParen => 103 | .RParen => 104 | .LBrace => 105 | .RBrace => 106
  | .LBracket => 107 | .RBracket => 108
  | .Comma => 109 | .Colon => 110 | .Semi => 111 | .Dot => 112
  | .Arrow => 113 | .ColonColon => 114
  | .Eof => 115

/-- Discriminant equality of two tokens, ignoring payloads:
`std::mem::discriminant(a) == std::mem::discriminant(b)`. -/
def tokens_match (a b : Token) : Bool :=
  token_tag a == token_tag b

/-- `Token::is_binary_op` (src/crates/fastc/src/lexer/token.rs); declared
outside the `Token` namespace so that `Bool` keeps its meaning. -/
def is_binary_op : Token → Bool
  | .Plus | .Minus | .Star | .Slash | .Percent
  | .EqEq | .NotEq | .Lt | .LtEq | .Gt | .GtEq
  | .AndAnd | .OrOr
  | .And | .Or | .Caret | .Shl | .Shr => true
  | _ => false

/-! ## Parser (src/crates/fastc/src/parser/{mod,expr,types}.rs)

The parser state is the token list plus position; the borrowed source text
and filename only feed diagnostic spans and are dropped, as are the spans in
the produced AST.  The Rust recursion has no structural measure, so every
parsing function here takes fuel, decremented once on entry and passed to
every recursive call; `Option.none` marks fuel exhaustion and never arises
at the fuel the theorems supply. -/

structure ParserState where
  tokens : List Token
  pos : Nat

/-- `Parser::current`: the token at `pos`, or `Eof` past the end. -/
def ParserState.current (st : ParserState) : Token :=
  (st.tokens.get? st.pos).getD Token.Eof

/-- `Parser::is_at_end`. -/
def ParserState.is_at_end (st : ParserState) : Bool :=
  match st.current with
  | .Eof => true
  | _ => false

/-- `Parser::advance` (its Rust return value, the previous token, is unused
by the embedded callers). -/
def ParserState.advance (st : ParserState) : ParserState :=
  if st.is_at_end then st else { st with pos := st.pos + 1 }

/-- `Parser::check`: discriminant comparison against the current token. -/
def ParserState.check (st : ParserState) (t : Token) : Bool :=
  tokens_match st.current t

/-- `Parser::error` (the span and source feeding the diagnostic position are
dropped). -/
def ParserState.error (_ : ParserState) (message : String) : CompileError :=
  CompileError.parse message

/-- `Parser::consume`. -/
def ParserState.consume (st : ParserState) (expected : Token) (message : String) :
    Except CompileError ParserState :=
  if st.check expected then .ok st.advance else .error (st.error message)

/-- `Parser::expect_ident`. -/
def ParserState.expect_ident (st : ParserState) :
    Except CompileError (String × ParserState) :=
  match st.current with
  | .Ident name => .ok (name, st.advance)
  | _ => .error (st.error "expected identifier")

/-- `Parser::try_parse_binop`: map the current token to a binary operator
and advance past it if one is there. -/
def try_parse_binop (st : ParserState) : Option BinOp × ParserState :=
  let op : Option BinOp :=
    match st.current with
    | .Plus => Option.some .Add
    | .Minus => Option.some .Sub
    | .Star => Option.some .Mul
    | .Slash => Option.some .Div
    | .Percent => Option.some .Rem
    | .EqEq => Option.some .Eq
    | .NotEq => Option.some .Ne
    | .Lt => Option.some .Lt
    | .LtEq => Option.some .Le
    | .Gt => Option.some .Gt
    | .GtEq => Option.some .Ge
    | .AndAnd => Option.some .And
    | .OrOr => Option.some .Or
    | .And => Option.some .BitAnd
    | .Or => Option.some .BitOr
    | .Caret => Option.some .BitXor
    | .Shl => Option.some .Shl
    | .Shr => Option.some .Shr
    | _ => Option.none
  match op with
  | Option.some o => (Option.some o, st.advance)
  | Option.none => (Option.none, st)

mutual

/-- `Parser::parse_expr` (src/crates/fastc/src/parser/expr.rs). -/
def parse_expr : Nat → ParserState →
    Option (Except CompileError (Expr × ParserState))
  | 0, _ => Option.none
  | fuel + 1, st => parse_binary fuel st

/-- `Parser::parse_binary`: one binary operator at most; a second operator
right after a complete binary expression is the chained-operator error. -/
def parse_binary : Nat → ParserState →
    Option (Except CompileError (Expr × ParserState))
  | 0, _ => Option.none
  | fuel + 1, st =>
    match parse_unary fuel st with
    | Option.none => Option.none
    | Option.some (.error e) => Option.some (.error e)
    | Option.some (.ok (left, st1)) =>
      match try_parse_binop st1 with
      | (Option.some op, st2) =>
        match parse_unary fuel st2 with
        | Option.none => Option.none
        | Option.some (.error e) => Option.some (.error e)
        | Option.some (.ok (right, st3)) =>
          if is_binary_op st3.current then
            Option.some (.error
              (st3.error "chained binary operators require parentheses"))
          else
            Option.some (.ok (.Binary op left right, st3))
      | (Option.none, st2) => Option.some (.ok (left, st2))

/-- `Parser::parse_unary`. -/
def parse_unary : Nat → ParserState →
    Option (Except CompileError (Expr × ParserState))
  | 0, _ => Option.none
  | fuel + 1, st =>
    match st.current with
    | .Minus =>
      match parse_unary fuel st.advance with
      | Option.none => Option.none
      | Option.some (.error e) => Option.some (.error e)
      | Option.some (.ok (operand, st1)) =>
        Option.some (.ok (.Unary .Neg operand, st1))
    | .Not =>
      match parse_unary fuel st.advance with
      | Option.none => Option.none
      | Option.some (.error e) => Option.some (.error e)
      | Option.some (.ok (operand, st1)) =>
        Option.some (.ok (.Unary .Not operand, st1))
    | .Tilde =>
      match parse_unary fuel st.advance with
      | Option.none => Option.none
      | Option.some (.error e) => Option.some (.error e)
      | Option.some (.ok (operand, st1)) =>
        Option.some (.ok (.Unary .BitNot operand, st1))
    | _ => parse_postfix_expr fuel st

/-- `Parser::parse_postfix`: a primary followed by any number of calls and
field accesses. -/
def parse_postfix_expr : Nat → ParserState →
    Option (Except CompileError (Expr × ParserState))
  | 0, _ => Option.none
  | fuel + 1, st =>
    match parse_primary fuel st with
    | Option.none => Option.none
    | Option.some (.error e) => Option.some (.error e)
    | Option.some (.ok (e, st1)) => parse_postfix_loop fuel e st1

/-- The `loop` inside `Parser::parse_postfix`. -/
def parse_postfix_loop : Nat → Expr → ParserState →
    Option (Except CompileError (Expr × ParserState))
  | 0, _, _ => Option.none
  | fuel + 1, e, st =>
    if st.check .LParen then
      match parse_call fuel e st with
      | Option.none => Option.none
      | Option.some (.error err) => Option.some (.error err)
      | Option.some (.ok (e2, st2)) => parse_postfix_loop fuel e2 st2
    else if st.check .Dot then
      match parse_field_access fuel e st with
      | Option.none => Option.none
      | Option.some (.error err) => Option.some (.error err)
      | Option.some (.ok (e2, st2)) => parse_postfix_loop fuel e2 st2
    else
      Option.some (.ok (e, st))

/-- `Parser::parse_call`. -/
def parse_call : Nat → Expr → ParserState →
    Option (Except CompileError (Expr × ParserState))
  | 0, _, _ => Option.none
  | fuel + 1, callee, st =>
    match st.consume .LParen "expected '('" with
    | .error e => Option.some (.error e)
    | .ok st1 =>
      match
        (if st1.check .RParen then
          Option.some (.ok (([] : List Expr), st1))
        else
          match parse_expr fuel st1 with
          | Option.none => Option.none
          | Option.some (.error e) => Option.some (.error e)
          | Option.some (.ok (first, st2)) => parse_call_args fuel [first] st2)
      with
      | Option.none => Option.none
      | Option.some (.error e) => Option.some (.error e)
      | Option.some (.ok (args, st3)) =>
        match st3.consume .RParen "expected ')'" with
        | .error e => Option.some (.error e)
        | .ok st4 => Option.some (.ok (.Call callee args, st4))

/-- The `while self.check(&Token::Comma)` argument loop inside
`Parser::parse_call`. -/
def parse_call_args : Nat → List Expr → ParserState →
    Option (Except CompileError (List Expr × ParserState))
  | 0, _, _ => Option.none
  | fuel + 1, acc, st =>
    if st.check .Comma then
      let st1 := st.advance
      if st1.check .RParen then Option.some (.ok (acc, st1))
      else
        match parse_expr fuel st1 with
        | Option.none => Option.none
        | Option.some (.error e) => Option.some (.error e)
        | Option.some (.ok (a, st2)) => parse_call_args fuel (acc ++ [a]) st2
    else
      Option.some (.ok (acc, st))

/-- `Parser::parse_field_access`. -/
def parse_field_access : Nat → Expr → ParserState →
    Option (Except CompileError (Expr × ParserState))
  | 0, _, _ => Option.none
  | _ + 1, base, st =>
    match st.consume .Dot "expected '.'" with
    | .error e => Option.some (.error e)
    | .ok st1 =>
      match st1.expect_ident with
      | .error e => Option.some (.error e)
      | .ok (field, st2) => Option.some (.ok (.Field base field, st2))

/-- `Parser::parse_primary`. -/
def parse_primary : Nat → ParserState →
    Option (Except CompileError (Expr × ParserState))
  | 0, _ => Option.none
  | fuel + 1, st =>
    match st.current with
    | .IntLit n => Option.some (.ok (.IntLit n, st.advance))
    | .HexLit n => Option.some (.ok (.IntLit n, st.advance))
    | .BinLit n => Option.some (.ok (.IntLit n, st.advance))
    | .OctLit n => Option.some (.ok (.IntLit n, st.advance))
    | .FloatLit raw => Option.some (.ok (.FloatLit raw, st.advance))
    | .True => Option.some (.ok (.BoolLit true, st.advance))
    | .False => Option.some (.ok (.BoolLit false, st.advance))
    | .LParen =>
      match parse_expr fuel st.advance with
      | Option.none => Option.none
      | Option.some (.error e) => Option.some (.error e)
      | Option.some (.ok (inner, st1)) =>
        match st1.consume .RParen "expected ')'" with
        | .error e => Option.some (.error e)
        | .ok st2 => Option.some (.ok (.Paren inner, st2))
    | .Addr =>
      match (st.advance).consume .LParen "expected '(' after 'addr'" with
      | .error e => Option.some (.error e)
      | .ok st1 =>
        match parse_expr fuel st1 with
        | Option.none => Option.none
        | Option.some (.error e) => Option.some (.error e)
        | Option.some (.ok (operand, st2)) =>
          match st2.consume .RParen "expected ')'" with
          | .error e => Option.some (.error e)
          | .ok st3 => Option.some (.ok (.Addr operand, st3))
    | .Deref =>
      match (st.advance).consume .LParen "expected '(' after 'deref'" with
      | .error e => Option.some (.error e)
      | .ok st1 =>
        match parse_expr fuel st1 with
        | Option.none => Option.none
        | Option.some (.error e) => Option.some (.error e)
        | Option.some (.ok (operand, st2)) =>
          match st2.consume .RParen "expected ')'" with
          | .error e => Option.some (.error e)
          | .ok st3 => Option.some (.ok (.Deref operand, st3))
    | .At =>
      match (st.advance).consume .LParen "expected '(' after 'at'" with
      | .error e => Option.some (.error e)
      | .ok st1 =>
        match parse_expr fuel st1 with
        | Option.none => Option.none
        | Option.some (.error e) => Option.some (.error e)
        | Option.some (.ok (base, st2)) =>
          match st2.consume .Comma "expected ',' in 'at'" with
          | .error e => Option.some (.error e)
          | .ok st3 =>
            match parse_expr fuel st3 with
            | Option.none => Option.none
            | Option.some (.error e) => Option.some (.error e)
            | Option.some (.ok (index, st4)) =>
              match st4.consume .RParen "expected ')'" with
              | .error e => Option.some (.error e)
              | .ok st5 => Option.some (.ok (.At base index, st5))
    | .Cast =>
      match (st.advance).consume .LParen "expected '(' after 'cast'" with
      | .error e => Option.some (.error e)
      | .ok st1 =>
        match parse_type fuel st1 with
        | Option.none => Option.none
        | Option.some (.error e) => Option.some (.error e)
        | Option.some (.ok (ty, st2)) =>
          match st2.consume .Comma "expected ',' in 'cast'" with
          | .error e => Option.some (.error e)
          | .ok st3 =>
            match parse_expr fuel st3 with
            | Option.none => Option.none
            | Option.some (.error e) => Option.some (.error e)
            | Option.some (.ok (e, st4)) =>
              match st4.consume .RParen "expected ')'" with
              | .error e => Option.some (.error e)
              | .ok st5 => Option.some (.ok (.Cast ty e, st5))
    | .Cstr =>
      match (st.advance).consume .LParen "expected '(' after 'cstr'" with
      | .error e => Option.some (.error e)
      | .ok st1 =>
        match st1.current with
        | .StringLit s =>
          match (st1.advance).consume .RParen "expected ')'" with
          | .error e => Option.some (.error e)
          | .ok st2 => Option.some (.ok (.CStr s, st2))
        | _ => Option.some (.error (st1.error "expected string literal"))
    | .Bytes =>
      match (st.advance).consume .LParen "expected '(' after 'bytes'" with
      | .error e => Option.some (.error e)
      | .ok st1 =>
        match st1.current with
        | .StringLit s =>
          match (st1.advance).consume .RParen "expected ')'" with
          | .error e => Option.some (.error e)
          | .ok st2 => Option.some (.ok (.Bytes s, st2))
        | _ => Option.some (.error (st1.error "expected string literal"))
    | .None =>
      match (st.advance).consume .LParen "expected '(' after 'none'" with
      | .error e => Option.some (.error e)
      | .ok st1 =>
        match parse_type fuel st1 with
        | Option.none => Option.none
        | Option.some (.error e) => Option.some (.error e)
        | Option.some (.ok (ty, st2)) =>
          match st2.consume .RParen "expected ')'" with
          | .error e => Option.some (.error e)
          | .ok st3 => Option.some (.ok (.None ty, st3))
    | .Some =>
      match (st.advance).consume .LParen "expected '(' after 'some'" with
      | .error e => Option.some (.error e)
      | .ok st1 =>
        match parse_expr fuel st1 with
        | Option.none => Option.none
        | Option.some (.error e) => Option.some (.error e)
        | Option.some (.ok (v, st2)) =>
          match st2.consume .RParen "expected ')'" with
          | .error e => Option.some (.error e)
          | .ok st3 => Option.some (.ok (.Some v, st3))
    | .Ok_ =>
      match (st.advance).consume .LParen "expected '(' after 'ok'" with
      | .error e => Option.some (.error e)
      | .ok st1 =>
        match parse_expr fuel st1 with
        | Option.none => Option.none
        | Option.some (.error e) => Option.some (.error e)
        | Option.some (.ok (v, st2)) =>
          match st2.consume .RParen "expected ')'" with
          | .error e => Option.some (.error e)
          | .ok st3 => Option.some (.ok (.Ok v, st3))
    | .Err_ =>
      match (st.advance).consume .LParen "expected '(' after 'err'" with
      | .error e => Option.some (.error e)
      | .ok st1 =>
        match parse_expr fuel st1 with
        | Option.none => Option.none
        | Option.some (.error e) => Option.some (.error e)
        | Option.some (.ok (v, st2)) =>
          match st2.consume .RParen "expected ')'" with
          | .error e => Option.some (.error e)
          | .ok st3 => Option.some (.ok (.Err v, st3))
    | .Ident name =>
      let st1 := st.advance
      if st1.check .LBrace then
        let st2 := st1.advance
        match
          (if st2.check .RBrace then
            Option.some (.ok (([] : List FieldInit), st2))
          else parse_struct_fields fuel [] st2)
        with
        | Option.none => Option.none
        | Option.some (.error e) => Option.some (.error e)
        | Option.some (.ok (fields, st3)) =>
          match st3.consume .RBrace "expected '\x7d'" with
          | .error e => Option.some (.error e)
          | .ok st4 => Option.some (.ok (.StructLit name fields, st4))
      else
        Option.some (.ok (.Ident name, st1))
    | _ => Option.some (.error (st.error "expected expression"))

/-- The field `loop` inside `Parser::parse_primary`'s struct-literal branch:
entered with the cursor on the first field name. -/
def parse_struct_fields : Nat → List FieldInit → ParserState →
    Option (Except CompileError (List FieldInit × ParserState))
  | 0, _, _ => Option.none
  | fuel + 1, acc, st =>
    match st.expect_ident with
    | .error e => Option.some (.error e)
    | .ok (field_name, st1) =>
      match st1.consume .Colon "expected ':' in struct literal" with
      | .error e => Option.some (.error e)
      | .ok st2 =>
        match parse_expr fuel st2 with
        | Option.none => Option.none
        | Option.some (.error e) => Option.some (.error e)
        | Option.some (.ok (v, st3)) =>
          let acc2 := acc ++ [FieldInit.mk field_name v]
          if st3.check .Comma then
            let st4 := st3.advance
            if st4.check .RBrace then Option.some (.ok (acc2, st4))
            else parse_struct_fields fuel acc2 st4
          else
            Option.some (.ok (acc2, st3))

/-- `Parser::parse_type` (src/crates/fastc/src/parser/types.rs). -/
def parse_type : Nat → ParserState →
    Option (Except CompileError (TypeExpr × ParserState))
  | 0, _ => Option.none
  | fuel + 1, st =>
    match st.current with
    | .I8 => Option.some (.ok (.Primitive .I8, st.advance))
    | .I16 => Option.some (.ok (.Primitive .I16, st.advance))
    | .I32 => Option.some (.ok (.Primitive .I32, st.advance))
    | .I64 => Option.some (.ok (.Primitive .I64, st.advance))
    | .U8 => Option.some (.ok (.Primitive .U8, st.advance))
    | .U16 => Option.some (.ok (.Primitive .U16, st.advance))
    | .U32 => Option.some (.ok (.Primitive .U32, st.advance))
    | .U64 => Option.some (.ok (.Primitive .U64, st.advance))
    | .F32 => Option.some (.ok (.Primitive .F32, st.advance))
    | .F64 => Option.some (.ok (.Primitive .F64, st.advance))
    | .Bool => Option.some (.ok (.Primitive .Bool, st.advance))
    | .Usize => Option.some (.ok (.Primitive .Usize, st.advance))
    | .Isize => Option.some (.ok (.Primitive .Isize, st.advance))
    | .Void => Option.some (.ok (.Void, st.advance))
    | .Ref =>
      match (st.advance).consume .LParen "expected '(' after 'ref'" with
      | .error e => Option.some (.error e)
      | .ok st1 =>
        match parse_type fuel st1 with
        | Option.none => Option.none
        | Option.some (.error e) => Option.some (.error e)
        | Option.some (.ok (inner, st2)) =>
          match st2.consume .RParen "expected ')'" with
          | .error e => Option.some (.error e)
          | .ok st3 => Option.some (.ok (.Ref inner, st3))
    | .Mref =>
      match (st.advance).consume .LParen "expected '(' after 'mref'" with
      | .error e => Option.some (.error e)
      | .ok st1 =>
        match parse_type fuel st1 with
        | Option.none => Option.none
        | Option.some (.error e) => Option.some (.error e)
        | Option.some (.ok (inner, st2)) =>
          match st2.consume .RParen "expected ')'" with
          | .error e => Option.some (.error e)
          | .ok st3 => Option.some (.ok (.Mref inner, st3))
    | .Raw =>
      match (st.advance).consume .LParen "expected '(' after 'raw'" with
      | .error e => Option.some (.error e)
      | .ok st1 =>
        match parse_type fuel st1 with
        | Option.none => Option.none
        | Option.some (.error e) => Option.some (.error e)
        | Option.some (.ok (inner, st2)) =>
          match st2.consume .RParen "expected ')'" with
          | .error e => Option.some (.error e)
          | .ok st3 => Option.some (.ok (.Raw inner, st3))
    | .Rawm =>
      match (st.advance).consume .LParen "expected '(' after 'rawm'" with
      | .error e => Option.some (.error e)
      | .ok st1 =>
        match parse_type fuel st1 with
        | Option.none => Option.none
        | Option.some (.error e) => Option.some (.error e)
        | Option.some (.ok (inner, st2)) =>
          match st2.consume .RParen "expected ')'" with
          | .error e => Option.some (.error e)
          | .ok st3 => Option.some (.ok (.Rawm inner, st3))
    | .Own =>
      match (st.advance).consume .LParen "expected '(' after 'own'" with
      | .error e => Option.some (.error e)
      | .ok st1 =>
        match parse_type fuel st1 with
        | Option.none => Option.none
        | Option.some (.error e) => Option.some (.error e)
        | Option.some (.ok (inner, st2)) =>
          match st2.consume .RParen "expected ')'" with
          | .error e => Option.some (.error e)
          | .ok st3 => Option.some (.ok (.Own inner, st3))
    | .Slice =>
      match (st.advance).consume .LParen "expected '(' after 'slice'" with
      | .error e => Option.some (.error e)
      | .ok st1 =>
        match parse_type fuel st1 with
        | Option.none => Option.none
        | Option.some (.error e) => Option.some (.error e)
        | Option.some (.ok (inner, st2)) =>
          match st2.consume .RParen "expected ')'" with
          | .error e => Option.some (.error e)
          | .ok st3 => Option.some (.ok (.Slice inner, st3))
    | .Arr =>
      match (st.advance).consume .LParen "expected '(' after 'arr'" with
      | .error e => Option.some (.error e)
      | .ok st1 =>
        match parse_type fuel st1 with
        | Option.none => Option.none
        | Option.some (.error e) => Option.some (.error e)
        | Option.some (.ok (elem_type, st2)) =>
          match st2.consume .Comma "expected ',' in arr type" with
          | .error e => Option.some (.error e)
          | .ok st3 =>
            match parse_const_expr fuel st3 with
            | Option.none => Option.none
            | Option.some (.error e) => Option.some (.error e)
            | Option.some (.ok (size, st4)) =>
              match st4.consume .RParen "expected ')'" with
              | .error e => Option.some (.error e)
              | .ok st5 => Option.some (.ok (.Arr elem_type size, st5))
    | .Opt =>
      match (st.advance).consume .LParen "expected '(' after 'opt'" with
      | .error e => Option.some (.error e)
      | .ok st1 =>
        match parse_type fuel st1 with
        | Option.none => Option.none
        | Option.some (.error e) => Option.some (.error e)
        | Option.some (.ok (inner, st2)) =>
          match st2.consume .RParen "expected ')'" with
          | .error e => Option.some (.error e)
          | .ok st3 => Option.some (.ok (.Opt inner, st3))
    | .Res =>
      match (st.advance).consume .LParen "expected '(' after 'res'" with
      | .error e => Option.some (.error e)
      | .ok st1 =>
        match parse_type fuel st1 with
        | Option.none => Option.none
        | Option.some (.error e) => Option.some (.error e)
        | Option.some (.ok (ok_type, st2)) =>
          match st2.consume .Comma "expected ',' in res type" with
          | .error e => Option.some (.error e)
          | .ok st3 =>
            match parse_type fuel st3 with
            | Option.none => Option.none
            | Option.some (.error e) => Option.some (.error e)
            | Option.some (.ok (err_type, st4)) =>
              match st4.consume .RParen "expected ')'" with
              | .error e => Option.some (.error e)
              | .ok st5 => Option.some (.ok (.Res ok_type err_type, st5))
    | .Fn => parse_fn_type fuel st
    | .Unsafe => parse_fn_type fuel st
    | .Ident name => Option.some (.ok (.Named name, st.advance))
    | _ => Option.some (.error (st.error "expected type"))

/-- The `Token::Fn | Token::Unsafe` branch of `Parser::parse_type`. -/
def parse_fn_type : Nat → ParserState →
    Option (Except CompileError (TypeExpr × ParserState))
  | 0, _ => Option.none
  | fuel + 1, st =>
    let (u, st0) :=
      if st.check .Unsafe then (true, st.advance) else (false, st)
    match st0.consume .Fn "expected 'fn'" with
    | .error e => Option.some (.error e)
    | .ok st1 =>
      match st1.consume .LParen "expected '(' in function type" with
      | .error e => Option.some (.error e)
      | .ok st2 =>
        match
          (if st2.check .RParen then
            Option.some (.ok (([] : List TypeExpr), st2))
          else
            match parse_type fuel st2 with
            | Option.none => Option.none
            | Option.some (.error e) => Option.some (.error e)
            | Option.some (.ok (first, st3)) => parse_fn_params fuel [first] st3)
        with
        | Option.none => Option.none
        | Option.some (.error e) => Option.some (.error e)
        | Option.some (.ok (params, st4)) =>
          match st4.consume .RParen "expected ')'" with
          | .error e => Option.some (.error e)
          | .ok st5 =>
            match st5.consume .Arrow "expected '->' in function type" with
            | .error e => Option.some (.error e)
            | .ok st6 =>
              match parse_type fuel st6 with
              | Option.none => Option.none
              | Option.some (.error e) => Option.some (.error e)
              | Option.some (.ok (ret, st7)) =>
                Option.some (.ok (.Fn u params ret, st7))

/-- The `while self.check(&Token::Comma)` parameter loop inside the function
type branch of `Parser::parse_type`. -/
def parse_fn_params : Nat → List TypeExpr → ParserState →
    Option (Except CompileError (List TypeExpr × ParserState))
  | 0, _, _ => Option.none
  | fuel + 1, acc, st =>
    if st.check .Comma then
      let st1 := st.advance
      if st1.check .RParen then Option.some (.ok (acc, st1))
      else
        match parse_type fuel st1 with
        | Option.none => Option.none
        | Option.some (.error e) => Option.some (.error e)
        | Option.some (.ok (t, st2)) => parse_fn_params fuel (acc ++ [t]) st2
    else
      Option.some (.ok (acc, st))

/-- `Parser::parse_const_expr`. -/
def parse_const_expr : Nat → ParserState →
    Option (Except CompileError (ConstExpr × ParserState))
  | 0, _ => Option.none
  | fuel + 1, st => parse_const_binary fuel st

/-- `Parser::parse_const_binary`: the same single-operator rule as
`parse_binary`, on constant expressions. -/
def parse_const_binary : Nat → ParserState →
    Option (Except CompileError (ConstExpr × ParserState))
  | 0, _ => Option.none
  | fuel + 1, st =>
    match parse_const_unary fuel st with
    | Option.none => Option.none
    | Option.some (.error e) => Option.some (.error e)
    | Option.some (.ok (left, st1)) =>
      match try_parse_binop st1 with
      | (Option.some op, st2) =>
        match parse_const_unary fuel st2 with
        | Option.none => Option.none
        | Option.some (.error e) => Option.some (.error e)
        | Option.some (.ok (right, st3)) =>
          if is_binary_op st3.current then
            Option.some (.error
              (st3.error "chained binary operators require parentheses"))
          else
            Option.some (.ok (.Binary op left right, st3))
      | (Option.none, st2) => Option.some (.ok (left, st2))

/-- `Parser::parse_const_unary`. -/
def parse_const_unary : Nat → ParserState →
    Option (Except CompileError (ConstExpr × ParserState))
  | 0, _ => Option.none
  | fuel + 1, st =>
    match st.current with
    | .Minus =>
      match parse_const_unary fuel st.advance with
      | Option.none => Option.none
      | Option.some (.error e) => Option.some (.error e)
      | Option.some (.ok (operand, st1)) =>
        Option.some (.ok (.Unary .Neg operand, st1))
    | .Not =>
      match parse_const_unary fuel st.advance with
      | Option.none => Option.none
      | Option.some (.error e) => Option.some (.error e)
      | Option.some (.ok (operand, st1)) =>
        Option.some (.ok (.Unary .Not operand, st1))
    | .Tilde =>
      match parse_const_unary fuel st.advance with
      | Option.none => Option.none
      | Option.some (.error e) => Option.some (.error e)
      | Option.some (.ok (operand, st1)) =>
        Option.some (.ok (.Unary .BitNot operand, st1))
    | _ => parse_const_primary fuel st

/-- `Parser::parse_const_primary`. -/
def parse_const_primary : Nat → ParserState →
    Option (Except CompileError (ConstExpr × ParserState))
  | 0, _ => Option.none
  | fuel + 1, st =>
    match st.current with
    | .IntLit n => Option.some (.ok (.IntLit n, st.advance))
    | .HexLit n => Option.some (.ok (.IntLit n, st.advance))
    | .BinLit n => Option.some (.ok (.IntLit n, st.advance))
    | .OctLit n => Option.some (.ok (.IntLit n, st.advance))
    | .FloatLit raw => Option.some (.ok (.FloatLit raw, st.advance))
    | .True => Option.some (.ok (.BoolLit true, st.advance))
    | .False => Option.some (.ok (.BoolLit false, st.advance))
    | .Ident name => Option.some (.ok (.Ident name, st.advance))
    | .LParen =>
      match parse_const_expr fuel st.advance with
      | Option.none => Option.none
      | Option.some (.error e) => Option.some (.error e)
      | Option.some (.ok (inner, st1)) =>
        match st1.consume .RParen "expected ')'" with
        | .error e => Option.some (.error e)
        | .ok st2 => Option.some (.ok (.Paren inner, st2))
    | .Cast =>
      match (st.advance).consume .LParen "expected '(' after 'cast'" with
      | .error e => Option.some (.error e)
      | .ok st1 =>
        match parse_type fuel st1 with
        | Option.none => Option.none
        | Option.some (.error e) => Option.some (.error e)
        | Option.some (.ok (ty, st2)) =>
          match st2.consume .Comma "expected ',' in cast" with
          | .error e => Option.some (.error e)
          | .ok st3 =>
            match parse_const_expr fuel st3 with
            | Option.none => Option.none
            | Option.some (.error e) => Option.some (.error e)
            | Option.some (.ok (e, st4)) =>
              match st4.consume .RParen "expected ')'" with
              | .error e => Option.some (.error e)
              | .ok st5 => Option.some (.ok (.Cast ty e, st5))
    | .Cstr =>
      match (st.advance).consume .LParen "expected '(' after 'cstr'" with
      | .error e => Option.some (.error e)
      | .ok st1 =>
        match st1.current with
        | .StringLit s =>
          match (st1.advance).consume .RParen "expected ')'" with
          | .error e => Option.some (.error e)
          | .ok st2 => Option.some (.ok (.CStr s, st2))
        | _ => Option.some (.error (st1.error "expected string literal"))
    | .Bytes =>
      match (st.advance).consume .LParen "expected '(' after 'bytes'" with
      | .error e => Option.some (.error e)
      | .ok st1 =>
        match st1.current with
        | .StringLit s =>
          match (st1.advance).consume .RParen "expected ')'" with
          | .error e => Option.some (.error e)
          | .ok st2 => Option.some (.ok (.Bytes s, st2))
        | _ => Option.some (.error (st1.error "expected string literal"))
    | _ => Option.some (.error (st.error "expected constant expression"))

end

set_option maxHeartbeats 1600000 in
/-- C6: the parser enforces the single-binary-operator invariant.  For any
identifiers `a`, `b`, `c`, parsing `a + b + c` (a second binary operator
directly after a complete binary expression) yields the Parse diagnostic
"chained binary operators require parentheses", while `(a + b) + c` parses
successfully to `Binary Add (Paren (Binary Add a b)) c`, consuming all seven
tokens. -/
theorem C6_single_binary_operator (a b c : String) :
    parse_expr 12 ⟨[Token.Ident a, .Plus, .Ident b, .Plus, .Ident c, .Eof], 0⟩
      = Option.some (.error
          (CompileError.parse "chained binary operators require parentheses"))
    ∧ parse_expr 12
        ⟨[Token.LParen, .Ident a, .Plus, .Ident b, .RParen, .Plus, .Ident c,
          .Eof], 0⟩
      = Option.some (.ok
          (.Binary .Add (.Paren (.Binary .Add (.Ident a) (.Ident b)))
            (.Ident c),
           ⟨[Token.LParen, .Ident a, .Plus, .Ident b, .RParen, .Plus,
             .Ident c, .Eof], 7⟩)) :=
  ⟨rfl, rfl⟩

end FastC
